import Mathlib

/-!
# Verification of the vibe-forex frequent-pattern mining engine

Shallow embedding, in exact rational arithmetic, of the pattern-mining code
of the PcityB/vibe-forex repository:

* the Python miner embedded in `KaggleApiClient.generateNotebookCode`
  (`src/lib/kaggle-api.ts`, "variant A": `extract_patterns`, `create_pattern`,
  `calculate_statistics`);
* the Python miner embedded in `DirectKaggleService.generateKernelCode`
  (same file, "variant B": `extract_sliding_window_patterns`,
  `calculate_pattern_features`, `cluster_and_filter_patterns`,
  `create_representative_pattern`, `calculate_comprehensive_statistics`);
* the TypeScript demo generator `KaggleApiClient.generateDemoResults`;
* the TypeScript aggregator `calculatePatternStatistics` of the pattern
  analysis API route;
* the parameter validation of the job-submission API route `POST`.

Foreign numeric subroutines that the Python code calls and that have no
exact rational counterpart (`np.std`, `np.sqrt`, the k-means labelling
`KMeans.fit_predict`, the silhouette-based choice of the cluster count, and
every random draw of `np.random` / `Math.random`) are passed to the
embedded definitions as explicit function arguments; theorems quantify over
them, and where a property depends on the actual value of a standard
deviation the argument is pinned by the predicate `NpStdSpec` (nonnegative
square root of the population variance).  Float arithmetic is modelled by
exact rationals.
-/

/-- `np.mean` over rationals.  `np.mean([])` is NaN in numpy; here the
rational convention `0 / 0 = 0` applies (no claim evaluates the mean of an
empty list on a real run). -/
def npMean (xs : List ℚ) : ℚ := xs.sum / xs.length

/-- `np.var`: population variance, mean of squared deviations. -/
def npVariance (xs : List ℚ) : ℚ :=
  npMean (xs.map (fun x => (x - npMean xs) ^ 2))

/-- Characterisation of `np.std xs = σ`: the nonnegative square root of the
population variance.  Used to pin the explicit `std` function arguments to
the value numpy would produce on a concrete input. -/
def NpStdSpec (xs : List ℚ) (σ : ℚ) : Prop := 0 ≤ σ ∧ σ ^ 2 = npVariance xs

instance (xs : List ℚ) (σ : ℚ) : Decidable (NpStdSpec xs σ) := by
  unfold NpStdSpec; infer_instance

/-- `np.diff`: consecutive differences `x[i+1] - x[i]`. -/
def npDiff (xs : List ℚ) : List ℚ :=
  (xs.zip xs.tail).map (fun p => p.2 - p.1)

/-- Minimum of a list (`np.min`); `0` on the empty list, which the sources
never hit. -/
def listMin (xs : List ℚ) : ℚ := xs.foldl min (xs.headD 0)

/-- Maximum of a list (`np.max`); `0` on the empty list. -/
def listMax (xs : List ℚ) : ℚ := xs.foldl max (xs.headD 0)

/-- `np.mean(list_of_lists, axis=0)`: elementwise mean.  The sources only
apply it to lists of equal-length lists (all window shapes have length
`windowSize`); ragged input, on which numpy errors, is read with default
`0`. -/
def elemMean (ls : List (List ℚ)) : List ℚ :=
  (List.range (ls.headD []).length).map
    (fun j => (ls.map (fun l => l.getD j 0)).sum / ls.length)

/-- JavaScript `i.toString().padStart(3, '0')` for the pattern ids
(`pattern_%03d` in the Python variants). -/
def pad3 (i : ℕ) : String :=
  if i < 10 then "00" ++ Nat.repr i
  else if i < 100 then "0" ++ Nat.repr i
  else Nat.repr i

/-- `array.reduce((sum, p) => sum + f(p), 0)` (and `np.mean` numerators):
left fold summation, used verbatim by the statistics code. -/
def sumBy (f : α → ℚ) (ps : List α) : ℚ :=
  ps.foldl (fun s p => s + f p) 0

/-- Pattern direction labels. -/
inductive PatternType where
  | bullish
  | bearish
  | neutral
deriving DecidableEq, Repr

/-- The `DiscoveredPattern` record (fields common to the three producers).
`occurrences` is always the empty list in every producer and is omitted;
`firstSeen`/`lastSeen` are wall-clock milliseconds in the demo generator,
fixed ISO strings in variant B and absent in variant A — the two miners
store `0` here (no claim concerns them). -/
structure Pattern where
  id : String
  type : PatternType
  support : ℚ
  confidence : ℚ
  significance : ℚ
  profitability : ℚ
  winRate : ℚ
  avgReturn : ℚ
  maxDrawdown : ℚ
  sharpeRatio : ℚ
  pricePoints : List ℚ
  duration : ℕ
  frequency : ℕ
  firstSeen : ℚ
  lastSeen : ℚ
deriving DecidableEq, Repr

/-- `statistics.outOfSampleResults`. -/
structure OutOfSampleResults where
  winRate : ℚ
  avgReturn : ℚ
  sharpeRatio : ℚ
deriving DecidableEq, Repr

/-- The `PatternMiningStatistics` record.  `patternFrequency` (a
string-keyed count map in the sources, keyed only by the pattern type) is
modelled as a count function; `timeFrameDistribution` (a single-entry map
`{timeframe: totalPatterns}`) is modelled by its single count.
`avgSignificance` is produced by the demo generator and the two Python
variants but not by the TypeScript aggregator, which stores `0` here. -/
structure RunStatistics where
  totalPatterns : ℕ
  uniquePatterns : ℕ
  avgConfidence : ℚ
  avgSupport : ℚ
  avgSignificance : ℚ
  overallProfitability : ℚ
  avgWinRate : ℚ
  avgSharpeRatio : ℚ
  bestPattern : String
  worstPattern : String
  patternFrequency : PatternType → ℕ
  timeFrameCount : ℕ
  crossValidationScore : ℚ
  bootstrapConfidence : ℚ
  outOfSampleResults : OutOfSampleResults

/-- Result metadata. -/
structure ResultMetadata where
  dataPointsAnalyzed : ℕ
  patternsFound : ℕ
  executionTime : ℕ
  algorithmVersion : String
deriving DecidableEq, Repr

/-- A complete mining / demo result: patterns plus statistics plus
metadata. -/
structure MiningResult where
  patterns : List Pattern
  statistics : RunStatistics
  metadata : ResultMetadata

/-- `DEFAULT_MINING_PARAMS` from `src/lib/types.ts` (the numeric mining
parameters; currency pair and timeframe are carried as their symbol
strings). -/
structure PatternMiningParams where
  currencyPair : String
  timeFrame : String
  windowSize : ℕ
  minSupport : ℚ
  minConfidence : ℚ
  dataPoints : ℕ
  overlapThreshold : ℚ
  noiseFilter : ℚ
  significanceLevel : ℚ
  bootstrapSamples : ℤ
  crossValidationFolds : ℕ
deriving DecidableEq, Repr

def DEFAULT_MINING_PARAMS : PatternMiningParams :=
  { currencyPair := "EURUSD"
    timeFrame := "1h"
    windowSize := 20
    minSupport := 5/100
    minConfidence := 7/10
    dataPoints := 10000
    overlapThreshold := 3/10
    noiseFilter := 1/10
    significanceLevel := 5/100
    bootstrapSamples := 1000
    crossValidationFolds := 5 }

/-!
## Variant A: the miner of `generateNotebookCode`
(`ForexPatternMiner.extract_patterns` / `create_pattern` /
`calculate_statistics`, kaggle-api.ts lines 415-560)
-/

/-- A sliding window of variant A with its features (`extract_patterns`):
`normalized = (window - window[0]) / window[0]`,
`trend = normalized[-1] - normalized[0]`, `volatility = np.std(normalized)`
(the `std` argument), `momentum = np.mean(np.diff(normalized))`. -/
structure WindowA where
  index : ℕ
  normalized : List ℚ
  trend : ℚ
  volatility : ℚ
  momentum : ℚ
deriving DecidableEq, Repr

/-- Build the window of variant A starting at `i` over the close series. -/
def mkWindowA (std : List ℚ → ℚ) (closes : List ℚ) (w i : ℕ) : WindowA :=
  let window := (closes.drop i).take w
  let w0 := window.headD 0
  let normalized := window.map (fun x => (x - w0) / w0)
  { index := i
    normalized := normalized
    trend := normalized.getLastD 0 - normalized.headD 0
    volatility := std normalized
    momentum := npMean (npDiff normalized) }

/-- Window extraction of `extract_patterns`: start indices
`range(len(data) - window_size)` (truncated subtraction matches Python's
empty range when the series is no longer than the window), keeping a window
only `if volatility > 0.0001` ("Filter noise"). -/
def extract_windows_A (std : List ℚ → ℚ) (closes : List ℚ) (w : ℕ) :
    List WindowA :=
  (List.range (closes.length - w)).filterMap (fun i =>
    let win := mkWindowA std closes w i
    if (1/10000 : ℚ) < win.volatility then some win else none)

/-- The bootstrap resampling means of `create_pattern` (kaggle-api.ts
487-490), generalised over the round count `B`: `draws b j` is the index
into `trends` that `np.random.choice` picks at round `b`, position `j`
(out-of-range draws, which `np.random.choice` never produces, read `0`);
each round's resample has `len(trends)` elements and contributes its mean. -/
def bootstrap_means (B : ℕ) (draws : ℕ → ℕ → ℕ) (trends : List ℚ) :
    List ℚ :=
  (List.range B).map (fun b =>
    npMean ((List.range trends.length).map (fun j => trends.getD (draws b j) 0)))

/-- The two-sided empirical p-value over `B` bootstrap rounds: the fraction
of bootstrap means whose absolute value reaches the absolute observed mean
(kaggle-api.ts 492-493). -/
def bootstrap_p_value (B : ℕ) (draws : ℕ → ℕ → ℕ) (trends : List ℚ) : ℚ :=
  (((bootstrap_means B draws trends).filter
    (fun m => |npMean trends| ≤ |m|)).length : ℚ) / B

/-- The bootstrap block of `create_pattern` (kaggle-api.ts 485-494): the
number of resampling rounds is the literal `100` in the source (the
`bootstrapSamples` parameter is never read), and
`significance = max(0.1, 1 - p_value)`. -/
def create_pattern_significance (draws : ℕ → ℕ → ℕ) (trends : List ℚ) : ℚ :=
  max (1/10) (1 - bootstrap_p_value 100 draws trends)

/-- Modelled from the spec: the significance computation as the claim states
it, resampling `bootstrapSamples` (`B`) times instead of the source's
hard-coded `100`.  Only used to compare against
`create_pattern_significance`. -/
def claim_significance (B : ℕ) (draws : ℕ → ℕ → ℕ) (trends : List ℚ) : ℚ :=
  max (1/10) (1 - bootstrap_p_value B draws trends)

/-- Modelled from the spec: the confidence formula as the claim states it,
`max(0.5, 1 / (1 + variance(trend) * scale))` with the source's scale
`1000`, computed from the population variance of the cluster trends.  Only
used to compare against the confidence `create_pattern` computes. -/
def claim_confidence (trends : List ℚ) : ℚ :=
  max (1/2) (1 / (1 + npVariance trends * 1000))

/-- `create_pattern` (variant A, kaggle-api.ts 466-518).  `std` stands for
`np.std`, `draws` for the bootstrap resampling choices, `noise` for the one
`np.random.normal(0, 0.02)` draw of the profitability estimate. -/
def create_pattern (std : List ℚ → ℚ) (draws : ℕ → ℕ → ℕ) (noise : ℚ)
    (cluster_windows : List WindowA) (cluster_id : ℕ) (support : ℚ) :
    Pattern :=
  let avg_trend := npMean (cluster_windows.map (·.trend))
  let avg_vol := npMean (cluster_windows.map (·.volatility))
  let avg_momentum := npMean (cluster_windows.map (·.momentum))
  let pattern_type : PatternType :=
    if 1/500 < avg_trend ∧ 0 < avg_momentum then .bullish
    else if avg_trend < -(1/500) ∧ avg_momentum < 0 then .bearish
    else .neutral
  let trend_std := std (cluster_windows.map (·.trend))
  let confidence := max (1/2) (1 / (1 + trend_std * 1000))
  let significance := create_pattern_significance draws
    (cluster_windows.map (·.trend))
  let profitability := max (-(1/10)) (min (15/100) (avg_trend * 50 + noise))
  let avg_shape := elemMean (cluster_windows.map (·.normalized))
  { id := "pattern_" ++ pad3 cluster_id
    type := pattern_type
    support := support
    confidence := confidence
    significance := significance
    profitability := profitability
    winRate := confidence * (4/5)
    avgReturn := profitability
    maxDrawdown := |avg_trend| * (1/2)
    sharpeRatio := max 0 (profitability / (avg_vol + 1/1000))
    pricePoints := avg_shape
    duration := avg_shape.length
    frequency := cluster_windows.length
    firstSeen := 0
    lastSeen := 0 }

/-- The cluster-retention loop shared by both variants: for every
`cluster_id` below the cluster count, collect the windows labelled with it,
compute `support = len(cluster) / len(windows)`, and keep the cluster only
if `support >= min_support` and `len(cluster) >= minClusterSize` (the
constant is `3` in variant A, `5` in variant B). -/
def cluster_and_filter {W P : Type} (mk : List W → ℕ → ℚ → P)
    (minClusterSize : ℕ) (windows : List W) (labels : List ℕ)
    (n_clusters : ℕ) (min_support : ℚ) : List P :=
  (List.range n_clusters).filterMap (fun cluster_id =>
    let cluster_windows :=
      ((windows.zip labels).filter (fun wl => wl.2 = cluster_id)).map Prod.fst
    let support : ℚ := (cluster_windows.length : ℚ) / (windows.length : ℚ)
    if min_support ≤ support ∧ minClusterSize ≤ cluster_windows.length then
      some (mk cluster_windows cluster_id support)
    else none)

/-- `extract_patterns` (variant A): extract and noise-filter the windows;
with fewer than 10 windows return no patterns; otherwise cluster with
`n_clusters = min(10, max(3, len(windows)//20))` (the k-means label
assignment is the explicit `labels` argument) and retain clusters with
`support >= min_support` and at least 3 members. -/
def extract_patterns_A (std : List ℚ → ℚ) (draws : ℕ → ℕ → ℕ → ℕ)
    (noise : ℕ → ℚ) (labels : List ℕ) (closes : List ℚ) (w : ℕ)
    (min_support : ℚ) : List Pattern :=
  let windows := extract_windows_A std closes w
  if windows.length < 10 then []
  else
    let n_clusters := min 10 (max 3 (windows.length / 20))
    cluster_and_filter
      (fun cw cid s => create_pattern std (draws cid) (noise cid) cw cid s)
      3 windows labels n_clusters min_support

/-- `calculate_statistics` (variant A).  On the empty pattern list the
Python returns a dict holding only
`totalPatterns/avgConfidence/avgSupport/overallProfitability/patternFrequency`,
all zero; the missing keys are modelled as `0`/`""` as well. -/
def calculate_statistics_A (patterns : List Pattern) : RunStatistics :=
  match patterns with
  | [] =>
    { totalPatterns := 0, uniquePatterns := 0, avgConfidence := 0
      avgSupport := 0, avgSignificance := 0, overallProfitability := 0
      avgWinRate := 0, avgSharpeRatio := 0, bestPattern := ""
      worstPattern := "", patternFrequency := fun _ => 0, timeFrameCount := 0
      crossValidationScore := 0, bootstrapConfidence := 0
      outOfSampleResults := { winRate := 0, avgReturn := 0, sharpeRatio := 0 } }
  | h :: t =>
    let ps := h :: t
    let avgWinRate := npMean (ps.map (·.winRate))
    let overallProfitability := npMean (ps.map (·.profitability))
    let avgSharpeRatio := npMean (ps.map (·.sharpeRatio))
    let best := t.foldl
      (fun best cur => if best.profitability < cur.profitability then cur
        else best) h
    let worst := t.foldl
      (fun worst cur => if cur.profitability < worst.profitability then cur
        else worst) h
    { totalPatterns := ps.length
      uniquePatterns := (ps.map (·.type)).dedup.length
      avgConfidence := npMean (ps.map (·.confidence))
      avgSupport := npMean (ps.map (·.support))
      avgSignificance := npMean (ps.map (·.significance))
      overallProfitability := overallProfitability
      avgWinRate := avgWinRate
      avgSharpeRatio := avgSharpeRatio
      bestPattern := best.id
      worstPattern := worst.id
      patternFrequency := fun t0 => (ps.filter (·.type = t0)).length
      timeFrameCount := ps.length
      crossValidationScore :=
        ((ps.filter (fun p => 0 < p.profitability)).length : ℚ) / ps.length
      bootstrapConfidence := npMean (ps.map (fun p => p.confidence * p.significance))
      outOfSampleResults :=
        { winRate := avgWinRate * (85/100)
          avgReturn := overallProfitability * (8/10)
          sharpeRatio := avgSharpeRatio * (75/100) } }

/-- `run_analysis` of variant A: extraction, clustering, statistics,
metadata. -/
def run_analysis_A (std : List ℚ → ℚ) (draws : ℕ → ℕ → ℕ → ℕ)
    (noise : ℕ → ℚ) (labels : List ℕ) (closes : List ℚ) (w : ℕ)
    (min_support : ℚ) : MiningResult :=
  let patterns := extract_patterns_A std draws noise labels closes w min_support
  { patterns := patterns
    statistics := calculate_statistics_A patterns
    metadata :=
      { dataPointsAnalyzed := closes.length
        patternsFound := patterns.length
        executionTime := 0
        algorithmVersion := "1.0.0" } }

/-!
## Variant B: the miner of `generateKernelCode`
(`ForexPatternMiner.extract_sliding_window_patterns` /
`calculate_pattern_features` / `cluster_and_filter_patterns` /
`create_representative_pattern`, kaggle-api.ts lines 944-1201)
-/

/-- The feature record of `calculate_pattern_features`. -/
structure FeaturesB where
  normalized_prices : List ℚ
  trend : ℚ
  volatility : ℚ
  skewness : ℚ
  kurtosis : ℚ
  momentum : ℚ
  price_range : ℚ
  pattern_strength : ℚ
  directional_changes : ℕ
deriving DecidableEq, Repr

/-- A window of variant B: start/end index plus its features. -/
structure WindowB where
  start_idx : ℕ
  end_idx : ℕ
  features : FeaturesB
deriving DecidableEq, Repr

/-- `calculate_skewness`: third standardised moment of the returns, `0`
when their standard deviation (`std returns`) is zero. -/
def calculate_skewness (std : List ℚ → ℚ) (returns : List ℚ) : ℚ :=
  let mean_return := npMean returns
  let std_return := std returns
  if std_return = 0 then 0
  else npMean (returns.map (fun r => ((r - mean_return) / std_return) ^ 3))

/-- `calculate_kurtosis`: fourth standardised moment of the returns minus
3, `0` when their standard deviation is zero. -/
def calculate_kurtosis (std : List ℚ → ℚ) (returns : List ℚ) : ℚ :=
  let mean_return := npMean returns
  let std_return := std returns
  if std_return = 0 then 0
  else npMean (returns.map (fun r => ((r - mean_return) / std_return) ^ 4)) - 3

/-- `calculate_pattern_features` over the closes of one window.
`normalized_prices` is the MinMax scaling `(x - min) / (max - min)` (a
constant window scales to all zeroes, as in sklearn); `returns` are the
simple returns `np.diff(closes) / closes[:-1]`;
`pattern_strength = np.std(normalized) + |normalized[-1] - normalized[0]|`.
`std` stands for `np.std`. -/
def calculate_pattern_features (std : List ℚ → ℚ) (closes : List ℚ) :
    FeaturesB :=
  let mn := listMin closes
  let mx := listMax closes
  let normalized_prices := closes.map (fun x => (x - mn) / (mx - mn))
  let returns := (closes.zip closes.tail).map (fun p => (p.2 - p.1) / p.1)
  { normalized_prices := normalized_prices
    trend := normalized_prices.getLastD 0 - normalized_prices.headD 0
    volatility := std returns
    skewness := calculate_skewness std returns
    kurtosis := calculate_kurtosis std returns
    momentum := npMean returns
    price_range := (listMax closes - listMin closes) / closes.headD 0
    pattern_strength := std normalized_prices +
      |normalized_prices.getLastD 0 - normalized_prices.headD 0|
    directional_changes :=
      ((returns.zip returns.tail).filter (fun p => p.1 * p.2 < 0)).length }

/-- The inline noise filter of `extract_sliding_window_patterns`: a window
is kept iff `features['pattern_strength'] > 0.05` — the threshold is the
literal `0.05` in the source ("Filter weak patterns"). -/
def keep_window (f : FeaturesB) : Bool :=
  decide ((1/20 : ℚ) < f.pattern_strength)

/-- Modelled from the spec: the noise filter as the claim states it — a
window survives iff its `patternStrength` is at least the configured
`noiseFilter` parameter.  Only used to compare against `keep_window`. -/
def keep_window_spec (noise_floor : ℚ) (f : FeaturesB) : Bool :=
  decide (noise_floor ≤ f.pattern_strength)

/-- Window extraction of `extract_sliding_window_patterns`: start indices
`range(len(data) - window_size)`, each window spanning
`[i, i + window_size)`, kept iff `keep_window` accepts its features. -/
def extract_windows_B (std : List ℚ → ℚ) (closes : List ℚ) (w : ℕ) :
    List WindowB :=
  (List.range (closes.length - w)).filterMap (fun i =>
    let features := calculate_pattern_features std ((closes.drop i).take w)
    if keep_window features then
      some { start_idx := i, end_idx := i + w, features := features }
    else none)

/-- `estimate_pattern_profitability`: trend-scaled base profit minus a
volatility penalty plus one `np.random.normal(0, 0.01)` draw (`noise`),
clamped to `[-0.08, 0.12]`. -/
def estimate_pattern_profitability (noise avg_trend avg_volatility : ℚ) : ℚ :=
  max (-(2/25)) (min (3/25) (avg_trend * 50 - avg_volatility * 100 + noise))

/-- `create_representative_pattern` (variant B, kaggle-api.ts 1079-1129).
`std` stands for `np.std`, `sq n` for `np.sqrt(n)` in the t-statistic, and
`noise` for the random draw inside `estimate_pattern_profitability`.
Confidence is `max(0.5, 1 / (1 + np.var(trends) * 1000))`; significance is
the t-statistic clamp `min(0.99, max(0.1, |t| / 10))` — not a bootstrap.
The source stores fixed ISO-string `firstSeen`/`lastSeen`; modelled as
`0`. -/
def create_representative_pattern (std : List ℚ → ℚ) (sq : ℕ → ℚ)
    (noise : ℚ) (cluster_windows : List WindowB) (cluster_id : ℕ)
    (support : ℚ) : Pattern :=
  let features_list := cluster_windows.map (·.features)
  let avg_trend := npMean (features_list.map (·.trend))
  let avg_volatility := npMean (features_list.map (·.volatility))
  let avg_momentum := npMean (features_list.map (·.momentum))
  let pattern_type : PatternType :=
    if 1/100 < avg_trend ∧ 0 < avg_momentum then .bullish
    else if avg_trend < -(1/100) ∧ avg_momentum < 0 then .bearish
    else .neutral
  let trends := features_list.map (·.trend)
  let trend_variance := npVariance trends
  let confidence := max (1/2) (1 / (1 + trend_variance * 1000))
  let t_stat := npMean trends /
    (std trends / sq trends.length + 1/100000000)
  let significance := min (99/100) (max (1/10) (|t_stat| / 10))
  let avg_shape := elemMean (features_list.map (·.normalized_prices))
  let profitability :=
    estimate_pattern_profitability noise avg_trend avg_volatility
  { id := "pattern_" ++ pad3 cluster_id
    type := pattern_type
    support := support
    confidence := confidence
    significance := significance
    profitability := profitability
    winRate := confidence * (4/5)
    avgReturn := profitability
    maxDrawdown := avg_volatility * 2
    sharpeRatio := max 0 (profitability / (avg_volatility + 1/1000))
    pricePoints := avg_shape
    duration := avg_shape.length
    frequency := cluster_windows.length
    firstSeen := 0
    lastSeen := 0 }

/-- `extract_sliding_window_patterns` (variant B): extract and noise-filter
the windows; with fewer than 10 windows return no patterns; otherwise run
the final clustering at `optimal_clusters` (the silhouette sweep and the
k-means labelling are opaque randomized/irrational steps, passed in as
`optimal_clusters` and `labels`) and retain clusters with
`support >= min_support` and at least 5 members. -/
def extract_sliding_window_patterns_B (std : List ℚ → ℚ) (sq : ℕ → ℚ)
    (noise : ℕ → ℚ) (labels : List ℕ) (optimal_clusters : ℕ)
    (closes : List ℚ) (w : ℕ) (min_support : ℚ) : List Pattern :=
  let windows := extract_windows_B std closes w
  if windows.length < 10 then []
  else
    cluster_and_filter
      (fun cw cid s => create_representative_pattern std sq (noise cid) cw cid s)
      5 windows labels optimal_clusters min_support

/-- `empty_statistics` of variant B: the all-zero statistics record. -/
def empty_statistics : RunStatistics :=
  { totalPatterns := 0, uniquePatterns := 0, avgConfidence := 0
    avgSupport := 0, avgSignificance := 0, overallProfitability := 0
    avgWinRate := 0, avgSharpeRatio := 0, bestPattern := ""
    worstPattern := "", patternFrequency := fun _ => 0, timeFrameCount := 0
    crossValidationScore := 0, bootstrapConfidence := 0
    outOfSampleResults := { winRate := 0, avgReturn := 0, sharpeRatio := 0 } }

/-- `calculate_comprehensive_statistics` (variant B): `empty_statistics` on
the empty list, means / best-worst by profitability / fixed out-of-sample
discounts otherwise. -/
def calculate_comprehensive_statistics_B (patterns : List Pattern) :
    RunStatistics :=
  match patterns with
  | [] => empty_statistics
  | h :: t =>
    let ps := h :: t
    let avgWinRate := npMean (ps.map (·.winRate))
    let overallProfitability := npMean (ps.map (·.profitability))
    let avgSharpeRatio := npMean (ps.map (·.sharpeRatio))
    let best := t.foldl
      (fun best cur => if best.profitability < cur.profitability then cur
        else best) h
    let worst := t.foldl
      (fun worst cur => if cur.profitability < worst.profitability then cur
        else worst) h
    { totalPatterns := ps.length
      uniquePatterns := (ps.map (·.type)).dedup.length
      avgConfidence := npMean (ps.map (·.confidence))
      avgSupport := npMean (ps.map (·.support))
      avgSignificance := npMean (ps.map (·.significance))
      overallProfitability := overallProfitability
      avgWinRate := avgWinRate
      avgSharpeRatio := avgSharpeRatio
      bestPattern := best.id
      worstPattern := worst.id
      patternFrequency := fun t0 => (ps.filter (·.type = t0)).length
      timeFrameCount := ps.length
      crossValidationScore :=
        ((ps.filter (fun p => 0 < p.profitability)).length : ℚ) / ps.length
      bootstrapConfidence := npMean (ps.map (fun p => p.confidence * p.significance))
      outOfSampleResults :=
        { winRate := avgWinRate * (85/100)
          avgReturn := overallProfitability * (8/10)
          sharpeRatio := avgSharpeRatio * (75/100) } }

/-- `run_complete_analysis` of variant B. -/
def run_complete_analysis_B (std : List ℚ → ℚ) (sq : ℕ → ℚ) (noise : ℕ → ℚ)
    (labels : List ℕ) (optimal_clusters : ℕ) (closes : List ℚ) (w : ℕ)
    (min_support : ℚ) : MiningResult :=
  let patterns := extract_sliding_window_patterns_B std sq noise labels
    optimal_clusters closes w min_support
  { patterns := patterns
    statistics := calculate_comprehensive_statistics_B patterns
    metadata :=
      { dataPointsAnalyzed := closes.length
        patternsFound := patterns.length
        executionTime := 0
        algorithmVersion := "1.0.0" } }

/-!
## The TypeScript aggregator `calculatePatternStatistics`
(pattern-analysis API route)
-/

/-- `patterns.reduce((best, current) => current.profitability >
best.profitability ? current : best)`: JavaScript `reduce` with no initial
value starts from the first element; on ties the earlier pattern wins
(strict comparison).  Python's `max(patterns, key=...)` in the two miner
variants behaves identically. -/
def reduceBestByProfit (h : Pattern) (t : List Pattern) : Pattern :=
  t.foldl (fun best cur =>
    if best.profitability < cur.profitability then cur else best) h

/-- The symmetric `reduce` for the worst pattern. -/
def reduceWorstByProfit (h : Pattern) (t : List Pattern) : Pattern :=
  t.foldl (fun worst cur =>
    if cur.profitability < worst.profitability then cur else worst) h

/-- `calculatePatternStatistics` (TypeScript, pattern-analysis route): the
full zeroed record on the empty list, otherwise sums via `reduce`, best and
worst by profitability, the profitable fraction as the cross-validation
proxy, `bootstrapConfidence = clamp(avgConfidence * crossValidationScore)`,
and the fixed out-of-sample discounts ×0.85 / ×0.8 / ×0.75.  The
TypeScript record carries no `avgSignificance` and an empty
`timeFrameDistribution`; those model fields are `0`. -/
def calculatePatternStatistics (patterns : List Pattern) : RunStatistics :=
  match patterns with
  | [] =>
    { totalPatterns := 0, uniquePatterns := 0, avgConfidence := 0
      avgSupport := 0, avgSignificance := 0, overallProfitability := 0
      avgWinRate := 0, avgSharpeRatio := 0, bestPattern := ""
      worstPattern := "", patternFrequency := fun _ => 0, timeFrameCount := 0
      crossValidationScore := 0, bootstrapConfidence := 0
      outOfSampleResults := { winRate := 0, avgReturn := 0, sharpeRatio := 0 } }
  | h :: t =>
    let ps := h :: t
    let avgConfidence := sumBy (·.confidence) ps / ps.length
    let avgWinRate := sumBy (·.winRate) ps / ps.length
    let overallProfitability := sumBy (·.profitability) ps / ps.length
    let avgSharpeRatio := sumBy (·.sharpeRatio) ps / ps.length
    let crossValidationScore : ℚ :=
      ((ps.filter (fun p => 0 < p.profitability)).length : ℚ) / ps.length
    { totalPatterns := ps.length
      uniquePatterns := (ps.map (·.type)).dedup.length
      avgConfidence := avgConfidence
      avgSupport := sumBy (·.support) ps / ps.length
      avgSignificance := 0
      overallProfitability := overallProfitability
      avgWinRate := avgWinRate
      avgSharpeRatio := avgSharpeRatio
      bestPattern := (reduceBestByProfit h t).id
      worstPattern := (reduceWorstByProfit h t).id
      patternFrequency := fun t0 => (ps.filter (·.type = t0)).length
      timeFrameCount := 0
      crossValidationScore := crossValidationScore
      bootstrapConfidence := max 0 (min 1 (avgConfidence * crossValidationScore))
      outOfSampleResults :=
        { winRate := avgWinRate * (85/100)
          avgReturn := overallProfitability * (8/10)
          sharpeRatio := avgSharpeRatio * (75/100) } }

/-!
## The job-submission route `POST` (parameter validation)
-/

/-- The body of a job-submission request as the route sees it:
`currencyPair` and `timeFrame` may be absent from the JSON (`Option`,
matching the route's JavaScript truthiness test on the two object fields);
the numeric mining parameters are always carried through verbatim. -/
structure SubmitRequest where
  currencyPair : Option String
  timeFrame : Option String
  windowSize : ℤ
  minSupport : ℚ
  bootstrapSamples : ℤ
deriving DecidableEq, Repr

/-- Outcome of the submission route. -/
inductive SubmitOutcome where
  | rejected
  | submitted
deriving DecidableEq, Repr

/-- The submit route `POST`: the only validation in the source is
`if (!params.currencyPair || !params.timeFrame)` (HTTP 400); any request
passing it goes straight to `submitPatternMiningJob`, which itself performs
no parameter validation and returns a job id even when the remote call
fails. -/
def submitPOST (r : SubmitRequest) : SubmitOutcome :=
  if r.currencyPair.isNone || r.timeFrame.isNone then .rejected
  else .submitted

/-!
## The demo generator `generateDemoResults`
(`KaggleApiClient`, kaggle-api.ts lines 214-295)

`Math.random()` is unseeded ambient randomness; it is modelled by an
explicit stream `rng : ℕ → ℚ` read in the exact order the source draws,
and `Date.now()` by the explicit `now` (milliseconds).  Each generated
pattern consumes 32 draws (type, confidence, support, significance, 20
price-point noises, profitability, winRate, avgReturn, maxDrawdown,
sharpeRatio, frequency, firstSeen, lastSeen — in source order); pattern
`i` reads the stream at indices `1 + 32*i .. 1 + 32*i + 31`, after the
single draw at index `0` that fixes the pattern count; the statistics read
five more draws at `1 + 32*numPatterns .. 1 + 32*numPatterns + 4`.
-/

/-- `['bullish', 'bearish', 'neutral'][Math.floor(r * 3)]`.  For
`r ∈ [0, 1)` the index is 0, 1 or 2; draws outside `[0, 1)` (which
`Math.random` never produces, and on which the JavaScript indexing yields
`undefined`) are modelled as `neutral`. -/
def demoType (r : ℚ) : PatternType :=
  if ⌊r * 3⌋ = 0 then .bullish
  else if ⌊r * 3⌋ = 1 then .bearish
  else .neutral

/-- `Math.floor(Math.random() * 15) + 10`: the demo pattern count. -/
def demoNumPatterns (rng : ℕ → ℚ) : ℕ :=
  (⌊rng 0 * 15⌋).toNat + 10

/-- One demo pattern built from its 32 random draws `d` (in source order)
and the clock `now`; `i` is the loop index used for the id. -/
def demoPatternOf (d : Fin 32 → ℚ) (now : ℚ) (i : ℕ) : Pattern :=
  let confidence := 3/5 + d 1 * (7/20)
  let patternType := demoType (d 0)
  let trendFactor : ℚ :=
    if patternType = .bullish then 3/2000
    else if patternType = .bearish then -(3/2000) else 0
  let steps := (List.finRange 20).map
    (fun j => trendFactor + (d (4 + j.castLE (by omega)) - 1/2) * (3/1000))
  { id := "pattern_" ++ pad3 i
    type := patternType
    support := 1/50 + d 2 * (3/20)
    confidence := confidence
    significance := d 3 * (4/5) + 1/5
    profitability := (d 24 - 3/10) * (12/100)
    winRate := confidence * (85/100) + d 25 * (15/100)
    avgReturn := (d 26 - 1/4) * (8/100)
    maxDrawdown := d 27 * (4/100)
    sharpeRatio := max 0 ((d 28 - 15/100) * (5/2))
    pricePoints := (steps.scanl (· + ·) 0).tail
    duration := 20
    frequency := (⌊d 29 * 40⌋).toNat + 10
    firstSeen := now - d 30 * (30 * 24 * 60 * 60 * 1000)
    lastSeen := now - d 31 * (7 * 24 * 60 * 60 * 1000) }

/-- Demo pattern `i` reads the ambient stream at `1 + 32*i + k`. -/
def demoPattern (rng : ℕ → ℚ) (now : ℚ) (i : ℕ) : Pattern :=
  demoPatternOf (fun k => rng (1 + 32 * i + k.val)) now i

/-- The demo statistics block over the (sorted) pattern list and its five
random draws `d` (crossValidationScore, bootstrapConfidence, and the three
out-of-sample figures — all drawn fresh, independent of the in-sample
averages). -/
def demoStatisticsOf (d : Fin 5 → ℚ) (patterns : List Pattern) :
    RunStatistics :=
  { totalPatterns := patterns.length
    uniquePatterns := (patterns.map (·.type)).dedup.length
    avgConfidence := sumBy (·.confidence) patterns / patterns.length
    avgSupport := sumBy (·.support) patterns / patterns.length
    avgSignificance := sumBy (·.significance) patterns / patterns.length
    overallProfitability := sumBy (·.profitability) patterns / patterns.length
    avgWinRate := sumBy (·.winRate) patterns / patterns.length
    avgSharpeRatio := sumBy (·.sharpeRatio) patterns / patterns.length
    bestPattern := ((patterns.head?).map (·.id)).getD ""
    worstPattern := ((patterns.getLast?).map (·.id)).getD ""
    patternFrequency := fun t0 => (patterns.filter (·.type = t0)).length
    timeFrameCount := patterns.length
    crossValidationScore := d 0 * (4/10) + 55/100
    bootstrapConfidence := d 1 * (25/100) + 65/100
    outOfSampleResults :=
      { winRate := d 2 * (25/100) + 45/100
        avgReturn := (d 3 - 1/4) * (6/100)
        sharpeRatio := max 0 ((d 4 - 2/10) * (18/10)) } }

/-- Stable insertion step for `patterns.sort((a, b) => b.confidence -
a.confidence)`: an element moves past another only when its confidence is
strictly smaller, so elements of equal confidence keep their original
order. -/
def insertPatternDesc (p : Pattern) : List Pattern → List Pattern
  | [] => [p]
  | q :: t =>
    if p.confidence < q.confidence then q :: insertPatternDesc p t
    else p :: q :: t

/-- `patterns.sort((a, b) => b.confidence - a.confidence)`:
`Array.prototype.sort` is required to be stable, and a stable
descending-by-confidence sort has a unique result, so this stable insertion
sort is extensionally the JavaScript sort. -/
def sortPatternsDesc : List Pattern → List Pattern
  | [] => []
  | p :: t => insertPatternDesc p (sortPatternsDesc t)

/-- `generateDemoResults`: draw the pattern count, generate the patterns,
sort them by confidence descending, then compute the statistics with five
further draws and attach the fixed metadata. -/
def generateDemoResults (rng : ℕ → ℚ) (now : ℚ) : MiningResult :=
  let n := demoNumPatterns rng
  let raw := (List.range n).map (demoPattern rng now)
  let patterns := sortPatternsDesc raw
  { patterns := patterns
    statistics :=
      demoStatisticsOf (fun j => rng (1 + 32 * n + j.val)) patterns
    metadata :=
      { dataPointsAnalyzed := 5000
        patternsFound := patterns.length
        executionTime := 180
        algorithmVersion := "1.0.0" } }

/-!
## Helper lemmas
-/

theorem foldl_add_eq (f : α → ℚ) (ps : List α) (c : ℚ) :
    ps.foldl (fun s p => s + f p) c = c + (ps.map f).sum := by
  induction ps generalizing c with
  | nil => simp
  | cons h t ih => simp [ih]; ring

theorem sumBy_eq_sum_map (f : α → ℚ) (ps : List α) :
    sumBy f ps = (ps.map f).sum := by
  simpa using foldl_add_eq f ps 0

theorem foldl_max_mem (f : α → ℚ) (h : α) (t : List α) :
    t.foldl (fun best cur => if f best < f cur then cur else best) h ∈ h :: t := by
  induction t generalizing h with
  | nil => simp
  | cons a t ih =>
    simp only [List.foldl_cons]
    by_cases hc : f h < f a
    · rw [if_pos hc]
      rcases List.mem_cons.mp (ih a) with h1 | h1
      · rw [h1]; simp
      · simp [h1]
    · rw [if_neg hc]
      rcases List.mem_cons.mp (ih h) with h1 | h1
      · rw [h1]; simp
      · simp [h1]

theorem foldl_max_le (f : α → ℚ) (h : α) (t : List α) :
    ∀ q ∈ h :: t,
      f q ≤ f (t.foldl (fun best cur => if f best < f cur then cur else best) h) := by
  induction t generalizing h with
  | nil => intro q hq; rw [List.mem_singleton] at hq; simp [hq]
  | cons a t ih =>
    intro q hq
    simp only [List.foldl_cons]
    by_cases hc : f h < f a
    · rw [if_pos hc]
      rcases List.mem_cons.mp hq with rfl | hq1
      · exact le_trans (le_of_lt hc) (ih a a (by simp))
      · rcases List.mem_cons.mp hq1 with rfl | hq2
        · exact ih q q (by simp)
        · exact ih a q (List.mem_cons_of_mem _ hq2)
    · rw [if_neg hc]
      rcases List.mem_cons.mp hq with rfl | hq1
      · exact ih q q (by simp)
      · rcases List.mem_cons.mp hq1 with rfl | hq2
        · exact le_trans (not_lt.mp hc) (ih h h (by simp))
        · exact ih h q (List.mem_cons_of_mem _ hq2)

theorem reduceBestByProfit_mem (h : Pattern) (t : List Pattern) :
    reduceBestByProfit h t ∈ h :: t := by
  unfold reduceBestByProfit
  exact foldl_max_mem (fun p => p.profitability) h t

theorem reduceBestByProfit_le (h : Pattern) (t : List Pattern) :
    ∀ q ∈ h :: t, q.profitability ≤ (reduceBestByProfit h t).profitability := by
  unfold reduceBestByProfit
  exact foldl_max_le (fun p => p.profitability) h t

theorem mem_cluster_and_filter {W P : Type} {mk : List W → ℕ → ℚ → P}
    {minClusterSize : ℕ} {windows : List W} {labels : List ℕ}
    {n_clusters : ℕ} {min_support : ℚ} {p : P}
    (hp : p ∈ cluster_and_filter mk minClusterSize windows labels n_clusters
      min_support) :
    ∃ cw : List W, ∃ cid : ℕ,
      p = mk cw cid ((cw.length : ℚ) / (windows.length : ℚ)) ∧
      min_support ≤ (cw.length : ℚ) / (windows.length : ℚ) ∧
      minClusterSize ≤ cw.length ∧ cw.length ≤ windows.length := by
  unfold cluster_and_filter at hp
  rcases List.mem_filterMap.mp hp with ⟨cid, _, hcid⟩
  set cw := ((windows.zip labels).filter (fun wl => wl.2 = cid)).map Prod.fst
    with hcw
  by_cases hcond : min_support ≤ (cw.length : ℚ) / (windows.length : ℚ) ∧
      minClusterSize ≤ cw.length
  · refine ⟨cw, cid, ?_, hcond.1, hcond.2, ?_⟩
    · simp only [if_pos hcond] at hcid
      exact (Option.some_inj.mp hcid).symm
    · calc cw.length = ((windows.zip labels).filter
            (fun wl => wl.2 = cid)).length := by simp [hcw]
        _ ≤ (windows.zip labels).length := List.length_filter_le _ _
        _ ≤ windows.length := by
            rw [List.length_zip]; exact min_le_left _ _
  · simp only [if_neg hcond] at hcid
    exact absurd hcid (by simp)

theorem create_pattern_support_eq (std : List ℚ → ℚ) (draws : ℕ → ℕ → ℕ)
    (noise : ℚ) (cw : List WindowA) (cid : ℕ) (s : ℚ) :
    (create_pattern std draws noise cw cid s).support = s := rfl

theorem create_pattern_frequency_eq (std : List ℚ → ℚ) (draws : ℕ → ℕ → ℕ)
    (noise : ℚ) (cw : List WindowA) (cid : ℕ) (s : ℚ) :
    (create_pattern std draws noise cw cid s).frequency = cw.length := rfl

theorem create_representative_pattern_support_eq (std : List ℚ → ℚ)
    (sq : ℕ → ℚ) (noise : ℚ) (cw : List WindowB) (cid : ℕ) (s : ℚ) :
    (create_representative_pattern std sq noise cw cid s).support = s := rfl

theorem create_representative_pattern_frequency_eq (std : List ℚ → ℚ)
    (sq : ℕ → ℚ) (noise : ℚ) (cw : List WindowB) (cid : ℕ) (s : ℚ) :
    (create_representative_pattern std sq noise cw cid s).frequency =
      cw.length := rfl

theorem support_invariants {W : Type} {mk : List W → ℕ → ℚ → Pattern}
    (hsup : ∀ cw cid s, (mk cw cid s).support = s)
    (hfreq : ∀ cw cid s, (mk cw cid s).frequency = cw.length)
    {minClusterSize : ℕ} (h1 : 1 ≤ minClusterSize)
    {windows : List W} {labels : List ℕ} {n_clusters : ℕ} {min_support : ℚ}
    {p : Pattern}
    (hp : p ∈ cluster_and_filter mk minClusterSize windows labels n_clusters
      min_support) :
    minClusterSize ≤ p.frequency ∧
    p.support = (p.frequency : ℚ) / (windows.length : ℚ) ∧
    0 < p.support ∧ p.support ≤ 1 ∧ min_support ≤ p.support := by
  rcases mem_cluster_and_filter hp with ⟨cw, cid, rfl, hms, hmcs, hle⟩
  rw [hsup, hfreq]
  have hcw : 0 < cw.length := lt_of_lt_of_le h1 hmcs
  have hwin : 0 < windows.length := lt_of_lt_of_le hcw hle
  refine ⟨hmcs, rfl, ?_, ?_, hms⟩
  · exact div_pos (by exact_mod_cast hcw) (by exact_mod_cast hwin)
  · rw [div_le_one (by exact_mod_cast hwin)]
    exact_mod_cast hle

/-!
## Claim C1
-/

/-- C1: every Pattern returned by a mining run (either variant) has an
underlying cluster of size at least the variant's minimum cluster size (the
fixed floor `3` in variant A, `5` in variant B); its `support` equals the
cluster size (recorded as `frequency`) divided by the number of surviving
windows; and `0 < support ≤ 1` with `support ≥ min_support`. -/
theorem mining_support_invariants :
    (∀ (std : List ℚ → ℚ) (draws : ℕ → ℕ → ℕ → ℕ) (noise : ℕ → ℚ)
        (labels : List ℕ) (closes : List ℚ) (w : ℕ) (min_support : ℚ)
        (p : Pattern),
        p ∈ (run_analysis_A std draws noise labels closes w
          min_support).patterns →
          3 ≤ p.frequency ∧
          p.support =
            (p.frequency : ℚ) / ((extract_windows_A std closes w).length : ℚ) ∧
          0 < p.support ∧ p.support ≤ 1 ∧ min_support ≤ p.support) ∧
    (∀ (std : List ℚ → ℚ) (sq : ℕ → ℚ) (noise : ℕ → ℚ) (labels : List ℕ)
        (optimal_clusters : ℕ) (closes : List ℚ) (w : ℕ) (min_support : ℚ)
        (p : Pattern),
        p ∈ (run_complete_analysis_B std sq noise labels optimal_clusters
          closes w min_support).patterns →
          5 ≤ p.frequency ∧
          p.support =
            (p.frequency : ℚ) / ((extract_windows_B std closes w).length : ℚ) ∧
          0 < p.support ∧ p.support ≤ 1 ∧ min_support ≤ p.support) := by
  constructor
  · intro std draws noise labels closes w min_support p hp
    simp only [run_analysis_A, extract_patterns_A] at hp
    by_cases h10 : (extract_windows_A std closes w).length < 10
    · rw [if_pos h10] at hp
      exact absurd hp (List.not_mem_nil p)
    · rw [if_neg h10] at hp
      exact support_invariants (fun _ _ _ => rfl) (fun _ _ _ => rfl)
        (by norm_num) hp
  · intro std sq noise labels optimal_clusters closes w min_support p hp
    simp only [run_complete_analysis_B, extract_sliding_window_patterns_B] at hp
    by_cases h10 : (extract_windows_B std closes w).length < 10
    · rw [if_pos h10] at hp
      exact absurd hp (List.not_mem_nil p)
    · rw [if_neg h10] at hp
      exact support_invariants (fun _ _ _ => rfl) (fun _ _ _ => rfl)
        (by norm_num) hp

/-- Constant-1 stand-in for `np.std` used by concrete witnesses (only its
positivity matters to the witnessed statements). -/
def stdOneW : List ℚ → ℚ := fun _ => 1

/-- Witness close series: 11 bars; with window size 0 the extractor yields
11 (degenerate) windows, enough for the 10-window clustering guard. -/
def closesC1W : List ℚ := List.replicate 11 0

/-- Witness labelling: every window in cluster 0. -/
def labelsC1W : List ℕ := List.replicate 11 0

/-- The surviving windows of the variant-A witness run. -/
def windowsC1W : List WindowA := extract_windows_A stdOneW closesC1W 0

theorem windowsC1W_eq :
    windowsC1W = (List.range 11).map (mkWindowA stdOneW closesC1W 0) := by
  unfold windowsC1W extract_windows_A
  have h1 : closesC1W.length - 0 = 11 := by simp [closesC1W]
  rw [h1]
  have h2 : (fun i => let win := mkWindowA stdOneW closesC1W 0 i
      if (1/10000 : ℚ) < win.volatility then some win else none) =
      fun i => some (mkWindowA stdOneW closesC1W 0 i) := by
    funext i
    have hv : (mkWindowA stdOneW closesC1W 0 i).volatility = 1 := rfl
    show (if (1/10000 : ℚ) < (mkWindowA stdOneW closesC1W 0 i).volatility
      then some (mkWindowA stdOneW closesC1W 0 i) else none) = _
    rw [if_pos (by rw [hv]; norm_num)]
  rw [h2]
  exact congrFun (List.filterMap_eq_map _) _

theorem windowsC1W_length : windowsC1W.length = 11 := by
  rw [windowsC1W_eq]; simp

/-- The single pattern of the variant-A witness run. -/
def patternC1W : Pattern :=
  create_pattern stdOneW (fun _ _ => 0) 0 windowsC1W 0
    ((windowsC1W.length : ℚ) / (windowsC1W.length : ℚ))

theorem patternC1W_mem :
    patternC1W ∈ (run_analysis_A stdOneW (fun _ _ _ => 0) (fun _ => 0)
      labelsC1W closesC1W 0 (1/2)).patterns := by
  show patternC1W ∈ extract_patterns_A stdOneW (fun _ _ _ => 0) (fun _ => 0)
    labelsC1W closesC1W 0 (1/2)
  unfold extract_patterns_A
  rw [show extract_windows_A stdOneW closesC1W 0 = windowsC1W from rfl]
  rw [if_neg (by rw [windowsC1W_length]; norm_num)]
  rw [show min 10 (max 3 (windowsC1W.length / 20)) = 3 by
    rw [windowsC1W_length]; omega]
  simp only [cluster_and_filter]
  apply List.mem_filterMap.mpr
  refine ⟨0, by simp, ?_⟩
  have hfil : ((windowsC1W.zip labelsC1W).filter (fun wl => wl.2 = 0)) =
      windowsC1W.zip labelsC1W := by
    apply List.filter_eq_self.mpr
    intro x hx
    have h0 : x.2 = 0 :=
      List.eq_of_mem_replicate (List.of_mem_zip hx).2
    simp [h0]
  have hmap : (windowsC1W.zip labelsC1W).map Prod.fst = windowsC1W :=
    List.map_fst_zip _ _ (by rw [windowsC1W_length]; simp [labelsC1W])
  rw [hfil, hmap]
  rw [if_pos ⟨by rw [windowsC1W_length]; norm_num,
      by rw [windowsC1W_length]; norm_num⟩]
  rfl

/-- The surviving windows of the variant-B witness run. -/
def windowsC1WB : List WindowB := extract_windows_B stdOneW closesC1W 0

theorem windowsC1WB_eq :
    windowsC1WB = (List.range 11).map (fun i =>
      (⟨i, i + 0, calculate_pattern_features stdOneW
        ((closesC1W.drop i).take 0)⟩ : WindowB)) := by
  unfold windowsC1WB extract_windows_B
  have h1 : closesC1W.length - 0 = 11 := by simp [closesC1W]
  rw [h1]
  have h2 : (fun i =>
      let features := calculate_pattern_features stdOneW
        ((closesC1W.drop i).take 0)
      if keep_window features then
        some ({ start_idx := i, end_idx := i + 0, features := features } :
          WindowB)
      else none) =
      fun i => some ((⟨i, i + 0, calculate_pattern_features stdOneW
        ((closesC1W.drop i).take 0)⟩ : WindowB)) := by
    funext i
    have hk : keep_window (calculate_pattern_features stdOneW
        ((closesC1W.drop i).take 0)) = true := by
      apply decide_eq_true
      have hs : (calculate_pattern_features stdOneW
          ((closesC1W.drop i).take 0)).pattern_strength =
          1 + |(0 : ℚ) - 0| := rfl
      rw [hs]; norm_num
    show (if keep_window (calculate_pattern_features stdOneW
        ((closesC1W.drop i).take 0)) then _ else none) = _
    rw [if_pos hk]
  rw [h2]
  exact congrFun (List.filterMap_eq_map _) _

theorem windowsC1WB_length : windowsC1WB.length = 11 := by
  rw [windowsC1WB_eq]; simp

/-- The single pattern of the variant-B witness run. -/
def patternC1WB : Pattern :=
  create_representative_pattern stdOneW (fun _ => 0) 0 windowsC1WB 0
    ((windowsC1WB.length : ℚ) / (windowsC1WB.length : ℚ))

theorem patternC1WB_mem :
    patternC1WB ∈ (run_complete_analysis_B stdOneW (fun _ => 0) (fun _ => 0)
      labelsC1W 3 closesC1W 0 (1/2)).patterns := by
  show patternC1WB ∈ extract_sliding_window_patterns_B stdOneW (fun _ => 0)
    (fun _ => 0) labelsC1W 3 closesC1W 0 (1/2)
  unfold extract_sliding_window_patterns_B
  rw [show extract_windows_B stdOneW closesC1W 0 = windowsC1WB from rfl]
  rw [if_neg (by rw [windowsC1WB_length]; norm_num)]
  simp only [cluster_and_filter]
  apply List.mem_filterMap.mpr
  refine ⟨0, by simp, ?_⟩
  have hfil : ((windowsC1WB.zip labelsC1W).filter (fun wl => wl.2 = 0)) =
      windowsC1WB.zip labelsC1W := by
    apply List.filter_eq_self.mpr
    intro x hx
    have h0 : x.2 = 0 :=
      List.eq_of_mem_replicate (List.of_mem_zip hx).2
    simp [h0]
  have hmap : (windowsC1WB.zip labelsC1W).map Prod.fst = windowsC1WB :=
    List.map_fst_zip _ _ (by rw [windowsC1WB_length]; simp [labelsC1W])
  rw [hfil, hmap]
  rw [if_pos ⟨by rw [windowsC1WB_length]; norm_num,
      by rw [windowsC1WB_length]; norm_num⟩]
  rfl

theorem mining_support_invariants_witness :
    (3 ≤ patternC1W.frequency ∧
     patternC1W.support = (patternC1W.frequency : ℚ) /
       ((extract_windows_A stdOneW closesC1W 0).length : ℚ) ∧
     0 < patternC1W.support ∧ patternC1W.support ≤ 1 ∧
     (1/2 : ℚ) ≤ patternC1W.support) ∧
    (5 ≤ patternC1WB.frequency ∧
     patternC1WB.support = (patternC1WB.frequency : ℚ) /
       ((extract_windows_B stdOneW closesC1W 0).length : ℚ) ∧
     0 < patternC1WB.support ∧ patternC1WB.support ≤ 1 ∧
     (1/2 : ℚ) ≤ patternC1WB.support) :=
  ⟨mining_support_invariants.1 stdOneW (fun _ _ _ => 0) (fun _ => 0)
      labelsC1W closesC1W 0 (1/2) patternC1W patternC1W_mem,
   mining_support_invariants.2 stdOneW (fun _ => 0) (fun _ => 0)
      labelsC1W 3 closesC1W 0 (1/2) patternC1WB patternC1WB_mem⟩

/-!
## Claim C6
-/

theorem extract_windows_A_nil (std : List ℚ → ℚ) (closes : List ℚ) (w : ℕ)
    (h : closes.length ≤ w) : extract_windows_A std closes w = [] := by
  unfold extract_windows_A
  rw [Nat.sub_eq_zero_of_le h]
  rfl

theorem extract_windows_B_nil (std : List ℚ → ℚ) (closes : List ℚ) (w : ℕ)
    (h : closes.length ≤ w) : extract_windows_B std closes w = [] := by
  unfold extract_windows_B
  rw [Nat.sub_eq_zero_of_le h]
  rfl

theorem extract_patterns_A_nil_of_few (std : List ℚ → ℚ)
    (draws : ℕ → ℕ → ℕ → ℕ) (noise : ℕ → ℚ) (labels : List ℕ)
    (closes : List ℚ) (w : ℕ) (min_support : ℚ)
    (h : (extract_windows_A std closes w).length < 10) :
    extract_patterns_A std draws noise labels closes w min_support = [] := by
  unfold extract_patterns_A
  rw [if_pos h]

theorem extract_B_nil_of_few (std : List ℚ → ℚ) (sq : ℕ → ℚ)
    (noise : ℕ → ℚ) (labels : List ℕ) (optimal_clusters : ℕ)
    (closes : List ℚ) (w : ℕ) (min_support : ℚ)
    (h : (extract_windows_B std closes w).length < 10) :
    extract_sliding_window_patterns_B std sq noise labels optimal_clusters
      closes w min_support = [] := by
  unfold extract_sliding_window_patterns_B
  rw [if_pos h]

/-- C6: with a series no longer than the window, or with fewer than 10
surviving windows, both miners return an empty pattern list and zeroed
statistics (`totalPatterns = 0`); the pipeline completes rather than
raising (every embedded function is total). -/
theorem mining_insufficient_data :
    (∀ (std : List ℚ → ℚ) (draws : ℕ → ℕ → ℕ → ℕ) (noise : ℕ → ℚ)
        (labels : List ℕ) (closes : List ℚ) (w : ℕ) (min_support : ℚ),
        closes.length ≤ w →
          (run_analysis_A std draws noise labels closes w
            min_support).patterns = [] ∧
          (run_analysis_A std draws noise labels closes w
            min_support).statistics.totalPatterns = 0) ∧
    (∀ (std : List ℚ → ℚ) (draws : ℕ → ℕ → ℕ → ℕ) (noise : ℕ → ℚ)
        (labels : List ℕ) (closes : List ℚ) (w : ℕ) (min_support : ℚ),
        (extract_windows_A std closes w).length < 10 →
          (run_analysis_A std draws noise labels closes w
            min_support).patterns = [] ∧
          (run_analysis_A std draws noise labels closes w
            min_support).statistics.totalPatterns = 0) ∧
    (∀ (std : List ℚ → ℚ) (sq : ℕ → ℚ) (noise : ℕ → ℚ) (labels : List ℕ)
        (optimal_clusters : ℕ) (closes : List ℚ) (w : ℕ) (min_support : ℚ),
        closes.length ≤ w →
          (run_complete_analysis_B std sq noise labels optimal_clusters
            closes w min_support).patterns = [] ∧
          (run_complete_analysis_B std sq noise labels optimal_clusters
            closes w min_support).statistics.totalPatterns = 0) ∧
    (∀ (std : List ℚ → ℚ) (sq : ℕ → ℚ) (noise : ℕ → ℚ) (labels : List ℕ)
        (optimal_clusters : ℕ) (closes : List ℚ) (w : ℕ) (min_support : ℚ),
        (extract_windows_B std closes w).length < 10 →
          (run_complete_analysis_B std sq noise labels optimal_clusters
            closes w min_support).patterns = [] ∧
          (run_complete_analysis_B std sq noise labels optimal_clusters
            closes w min_support).statistics.totalPatterns = 0) := by
  have hA : ∀ (std : List ℚ → ℚ) (draws : ℕ → ℕ → ℕ → ℕ) (noise : ℕ → ℚ)
      (labels : List ℕ) (closes : List ℚ) (w : ℕ) (min_support : ℚ),
      (extract_windows_A std closes w).length < 10 →
        (run_analysis_A std draws noise labels closes w
          min_support).patterns = [] ∧
        (run_analysis_A std draws noise labels closes w
          min_support).statistics.totalPatterns = 0 := by
    intro std draws noise labels closes w min_support h
    have hp : extract_patterns_A std draws noise labels closes w
        min_support = [] :=
      extract_patterns_A_nil_of_few std draws noise labels closes w
        min_support h
    constructor
    · show extract_patterns_A std draws noise labels closes w min_support = []
      exact hp
    · show (calculate_statistics_A (extract_patterns_A std draws noise labels
        closes w min_support)).totalPatterns = 0
      rw [hp]
      rfl
  have hB : ∀ (std : List ℚ → ℚ) (sq : ℕ → ℚ) (noise : ℕ → ℚ)
      (labels : List ℕ) (optimal_clusters : ℕ) (closes : List ℚ) (w : ℕ)
      (min_support : ℚ),
      (extract_windows_B std closes w).length < 10 →
        (run_complete_analysis_B std sq noise labels optimal_clusters
          closes w min_support).patterns = [] ∧
        (run_complete_analysis_B std sq noise labels optimal_clusters
          closes w min_support).statistics.totalPatterns = 0 := by
    intro std sq noise labels optimal_clusters closes w min_support h
    have hp : extract_sliding_window_patterns_B std sq noise labels
        optimal_clusters closes w min_support = [] :=
      extract_B_nil_of_few std sq noise labels optimal_clusters closes w
        min_support h
    constructor
    · show extract_sliding_window_patterns_B std sq noise labels
        optimal_clusters closes w min_support = []
      exact hp
    · show (calculate_comprehensive_statistics_B
        (extract_sliding_window_patterns_B std sq noise labels
          optimal_clusters closes w min_support)).totalPatterns = 0
      rw [hp]
      rfl
  refine ⟨?_, hA, ?_, hB⟩
  · intro std draws noise labels closes w min_support h
    exact hA std draws noise labels closes w min_support
      (by rw [extract_windows_A_nil std closes w h]; norm_num)
  · intro std sq noise labels optimal_clusters closes w min_support h
    exact hB std sq noise labels optimal_clusters closes w min_support
      (by rw [extract_windows_B_nil std closes w h]; norm_num)

/-- Empty witness series for C6. -/
def closesC6W : List ℚ := []

theorem mining_insufficient_data_witness :
    ((run_analysis_A stdOneW (fun _ _ _ => 0) (fun _ => 0) [] closesC6W 20
        (5/100)).patterns = [] ∧
     (run_analysis_A stdOneW (fun _ _ _ => 0) (fun _ => 0) [] closesC6W 20
        (5/100)).statistics.totalPatterns = 0) ∧
    ((run_complete_analysis_B stdOneW (fun _ => 0) (fun _ => 0) [] 3
        closesC6W 20 (5/100)).patterns = [] ∧
     (run_complete_analysis_B stdOneW (fun _ => 0) (fun _ => 0) [] 3
        closesC6W 20 (5/100)).statistics.totalPatterns = 0) :=
  ⟨mining_insufficient_data.1 stdOneW (fun _ _ _ => 0) (fun _ => 0) []
      closesC6W 20 (5/100) (by simp [closesC6W]),
   mining_insufficient_data.2.2.1 stdOneW (fun _ => 0) (fun _ => 0) [] 3
      closesC6W 20 (5/100) (by simp [closesC6W])⟩

/-!
## Claim C7
-/

/-- A submission request whose numeric mining parameters are all out of
range (`windowSize < 0`, `minSupport > 1`, `bootstrapSamples ≤ 0`), but
which carries a currency pair and a time frame. -/
def badRequestC7 : SubmitRequest :=
  { currencyPair := some "EURUSD"
    timeFrame := some "1h"
    windowSize := -5
    minSupport := 7/2
    bootstrapSamples := -3 }

/-- C7 counterexample: the submission route accepts (and submits) a request
with `bootstrapSamples = -3 ≤ 0`, `windowSize = -5` and `minSupport = 7/2`;
no fail-fast parameter validation exists, contradicting the claim that such
requests are rejected before any computation. -/
theorem submit_no_validation_counterexample :
    submitPOST badRequestC7 = .submitted ∧
    badRequestC7.bootstrapSamples ≤ 0 ∧
    badRequestC7.windowSize < 0 ∧
    ¬(0 < badRequestC7.minSupport ∧ badRequestC7.minSupport ≤ 1) := by
  refine ⟨rfl, by decide, by decide, ?_⟩
  show ¬(0 < (7/2 : ℚ) ∧ (7/2 : ℚ) ≤ 1)
  norm_num

/-- C7 amended: the only validation performed by the submission route is
presence of `currencyPair` and `timeFrame`; a request is rejected iff one
of the two is missing, regardless of `windowSize`, `minSupport` and
`bootstrapSamples`. -/
theorem submit_validation_characterisation :
    ∀ r : SubmitRequest,
      submitPOST r = .rejected ↔
        (r.currencyPair = none ∨ r.timeFrame = none) := by
  intro r
  unfold submitPOST
  rcases r with ⟨cp, tf, ws, ms, bs⟩
  cases cp <;> cases tf <;> simp

/-- A request missing its currency pair. -/
def noPairRequestC7 : SubmitRequest :=
  { currencyPair := none
    timeFrame := some "1h"
    windowSize := 20
    minSupport := 5/100
    bootstrapSamples := 1000 }

theorem submit_validation_characterisation_witness :
    submitPOST noPairRequestC7 = .rejected :=
  (submit_validation_characterisation noPairRequestC7).mpr (Or.inl rfl)

/-!
## Claim C2
-/

theorem bootstrap_p_value_nonneg (B : ℕ) (draws : ℕ → ℕ → ℕ)
    (trends : List ℚ) : 0 ≤ bootstrap_p_value B draws trends := by
  unfold bootstrap_p_value
  positivity

/-- C2 amended (bounds): every Pattern's significance is strictly positive
and at most 1 — in `create_pattern` because
`significance = max(0.1, 1 - p_value)` with `p_value ≥ 0`, in
`create_representative_pattern` because the t-statistic clamp
`min(0.99, max(0.1, |t|/10))` lies in `[0.1, 0.99]`. -/
theorem significance_bounds :
    (∀ (std : List ℚ → ℚ) (draws : ℕ → ℕ → ℕ) (noise : ℚ)
        (cw : List WindowA) (cid : ℕ) (s : ℚ),
        1/10 ≤ (create_pattern std draws noise cw cid s).significance ∧
        (create_pattern std draws noise cw cid s).significance ≤ 1) ∧
    (∀ (std : List ℚ → ℚ) (sq : ℕ → ℚ) (noise : ℚ) (cw : List WindowB)
        (cid : ℕ) (s : ℚ),
        1/10 ≤ (create_representative_pattern std sq noise cw cid
          s).significance ∧
        (create_representative_pattern std sq noise cw cid
          s).significance ≤ 99/100) := by
  constructor
  · intro std draws noise cw cid s
    show 1/10 ≤ create_pattern_significance draws (cw.map (·.trend)) ∧
      create_pattern_significance draws (cw.map (·.trend)) ≤ 1
    unfold create_pattern_significance
    refine ⟨le_max_left _ _, max_le (by norm_num) ?_⟩
    have h := bootstrap_p_value_nonneg 100 draws (cw.map (·.trend))
    linarith
  · intro std sq noise cw cid s
    constructor
    · show 1/10 ≤ min (99/100) (max (1/10) _)
      exact le_min (by norm_num) (le_max_left _ _)
    · show min (99/100) (max (1/10) _) ≤ 99/100
      exact min_le_left _ _

/-- Bootstrap draw schedule for the C2 counterexample: rounds below 100
resample index 0 throughout, later rounds index 1. -/
def bootDrawsCE : ℕ → ℕ → ℕ := fun b _ => if b < 100 then 0 else 1

/-- Cluster trend values for the C2 counterexample. -/
def trendsCE : List ℚ := [0, 10]

theorem trendsCE_mean : npMean trendsCE = 5 := by
  norm_num [npMean, trendsCE]

theorem bootstrap_means_CE_lo :
    bootstrap_means 100 bootDrawsCE trendsCE = List.replicate 100 0 := by
  apply List.eq_replicate_iff.mpr
  refine ⟨by simp [bootstrap_means], ?_⟩
  intro x hx
  rcases List.mem_map.mp hx with ⟨b, hb, rfl⟩
  rw [List.mem_range] at hb
  have hd : ∀ j, bootDrawsCE b j = 0 := fun j => if_pos hb
  simp only [hd]
  norm_num [trendsCE, npMean]

theorem bootstrap_p_CE_code : bootstrap_p_value 100 bootDrawsCE trendsCE = 0 := by
  unfold bootstrap_p_value
  rw [bootstrap_means_CE_lo, trendsCE_mean]
  have h : (List.replicate 100 (0:ℚ)).filter (fun m => |(5:ℚ)| ≤ |m|) = [] := by
    apply List.filter_eq_nil_iff.mpr
    intro a ha
    rw [List.eq_of_mem_replicate ha]
    norm_num
  rw [h]
  norm_num

theorem bootstrap_p_CE_claim :
    bootstrap_p_value 101 bootDrawsCE trendsCE = 1/101 := by
  unfold bootstrap_p_value
  have hm : bootstrap_means 101 bootDrawsCE trendsCE =
      List.replicate 100 0 ++ [10] := by
    unfold bootstrap_means
    rw [List.range_succ, List.map_append]
    have h1 : (List.range 100).map (fun b =>
        npMean ((List.range trendsCE.length).map
          (fun j => trendsCE.getD (bootDrawsCE b j) 0))) =
        List.replicate 100 0 := bootstrap_means_CE_lo
    rw [h1]
    have hd : ∀ j, bootDrawsCE 100 j = 1 := fun j => if_neg (by norm_num)
    simp only [List.map_cons, List.map_nil, hd]
    norm_num [trendsCE, npMean]
  rw [hm, trendsCE_mean, List.filter_append]
  have h2 : (List.replicate 100 (0:ℚ)).filter (fun m => |(5:ℚ)| ≤ |m|) = [] := by
    apply List.filter_eq_nil_iff.mpr
    intro a ha
    rw [List.eq_of_mem_replicate ha]
    norm_num
  have h3 : ([10] : List ℚ).filter (fun m => |(5:ℚ)| ≤ |m|) = [10] := by
    norm_num [List.filter]
  rw [h2, h3]
  norm_num

/-- Trend-carrier windows for the C2 counterexample (two cluster members
with trends 0 and 10). -/
def cwsCE : List WindowA := [⟨0, [], 0, 0, 0⟩, ⟨1, [], 10, 0, 0⟩]

/-- C2 counterexample: the bootstrap of `create_pattern` always runs 100
rounds; with the draw schedule `bootDrawsCE` the code computes significance
1, while the claim's computation with `bootstrapSamples = 101` rounds gives
100/101 — the number of resampling rounds is not the configurable
`bootstrapSamples`. -/
theorem bootstrap_count_counterexample :
    create_pattern_significance bootDrawsCE trendsCE = 1 ∧
    claim_significance 101 bootDrawsCE trendsCE = 100/101 ∧
    (create_pattern stdOneW bootDrawsCE 0 cwsCE 0 (1/2)).significance = 1 ∧
    create_pattern_significance bootDrawsCE trendsCE ≠
      claim_significance 101 bootDrawsCE trendsCE := by
  have hcode : create_pattern_significance bootDrawsCE trendsCE = 1 := by
    unfold create_pattern_significance
    rw [bootstrap_p_CE_code]
    norm_num
  have hclaim : claim_significance 101 bootDrawsCE trendsCE = 100/101 := by
    unfold claim_significance
    rw [bootstrap_p_CE_claim]
    norm_num
  refine ⟨hcode, hclaim, ?_, ?_⟩
  · show create_pattern_significance bootDrawsCE (cwsCE.map (·.trend)) = 1
    have : cwsCE.map (·.trend) = trendsCE := rfl
    rw [this, hcode]
  · rw [hcode, hclaim]
    norm_num

/-!
## Claim C9
-/

theorem npVariance_nonneg (xs : List ℚ) : 0 ≤ npVariance xs := by
  unfold npVariance npMean
  apply div_nonneg
  · apply List.sum_nonneg
    intro a ha
    rcases List.mem_map.mp ha with ⟨y, _, rfl⟩
    positivity
  · positivity

theorem confidence_clamp_bounds (x : ℚ) (hx : 0 ≤ x) :
    1/2 ≤ max (1/2) (1 / (1 + x * 1000)) ∧
    max (1/2) (1 / (1 + x * 1000)) ≤ 1 := by
  refine ⟨le_max_left _ _, max_le (by norm_num) ?_⟩
  have h1 : (1:ℚ) ≤ 1 + x * 1000 := by linarith
  have h2 : (0:ℚ) < 1 + x * 1000 := by linarith
  rw [div_le_one h2]
  exact h1

/-- C9 amended (bounds): both variants clamp confidence as
`max(0.5, 1 / (1 + x * 1000))`, so `confidence ∈ [0.5, 1]` — but the `x` is
the trend standard deviation (`np.std`) in `create_pattern` and the trend
variance (`np.var`) in `create_representative_pattern`. -/
theorem confidence_bounds :
    (∀ (std : List ℚ → ℚ) (draws : ℕ → ℕ → ℕ) (noise : ℚ)
        (cw : List WindowA) (cid : ℕ) (s : ℚ),
        0 ≤ std (cw.map (·.trend)) →
          1/2 ≤ (create_pattern std draws noise cw cid s).confidence ∧
          (create_pattern std draws noise cw cid s).confidence ≤ 1) ∧
    (∀ (std : List ℚ → ℚ) (sq : ℕ → ℚ) (noise : ℚ) (cw : List WindowB)
        (cid : ℕ) (s : ℚ),
        1/2 ≤ (create_representative_pattern std sq noise cw cid
          s).confidence ∧
        (create_representative_pattern std sq noise cw cid
          s).confidence ≤ 1) := by
  constructor
  · intro std draws noise cw cid s hstd
    show 1/2 ≤ max (1/2) (1 / (1 + std (cw.map (·.trend)) * 1000)) ∧
      max (1/2) (1 / (1 + std (cw.map (·.trend)) * 1000)) ≤ 1
    exact confidence_clamp_bounds _ hstd
  · intro std sq noise cw cid s
    show 1/2 ≤ max (1/2)
        (1 / (1 + npVariance ((cw.map (·.features)).map (·.trend)) * 1000)) ∧
      max (1/2)
        (1 / (1 + npVariance ((cw.map (·.features)).map (·.trend)) * 1000)) ≤ 1
    exact confidence_clamp_bounds _ (npVariance_nonneg _)

/-- Constant standard-deviation function for the C9 counterexample: the
true `np.std` of the trend list `[0, 1/100]` is `1/200`. -/
def stdC9 : List ℚ → ℚ := fun _ => 1/200

/-- Trend-carrier windows for the C9 counterexample: two cluster members
with trends 0 and 1/100. -/
def cwsC9 : List WindowA := [⟨0, [], 0, 0, 0⟩, ⟨1, [], 1/100, 0, 0⟩]

/-- C9 counterexample: on the cluster with trends `[0, 1/100]`,
`create_pattern` computes `confidence = max(0.5, 1/(1 + std * 1000)) = 1/2`
from the trend standard deviation `1/200`, while the claim's formula
`max(0.5, 1/(1 + variance * 1000))` over the trend variance `1/40000`
yields `40/41` — the two disagree, so the claim's "variance" reading is
false for `create_pattern`. -/
theorem confidence_formula_counterexample :
    NpStdSpec [0, 1/100] (stdC9 [0, 1/100]) ∧
    cwsC9.map (·.trend) = [0, 1/100] ∧
    (create_pattern stdC9 (fun _ _ => 0) 0 cwsC9 0 (1/2)).confidence = 1/2 ∧
    claim_confidence [0, 1/100] = 40/41 ∧
    (create_pattern stdC9 (fun _ _ => 0) 0 cwsC9 0 (1/2)).confidence ≠
      claim_confidence [0, 1/100] := by
  have hvar : npVariance [0, 1/100] = 1/40000 := by
    norm_num [npVariance, npMean]
  have hcode : (create_pattern stdC9 (fun _ _ => 0) 0 cwsC9 0
      (1/2)).confidence = 1/2 := by
    show max (1/2) (1 / (1 + stdC9 (cwsC9.map (·.trend)) * 1000)) = 1/2
    show max (1/2) (1 / (1 + (1/200 : ℚ) * 1000)) = 1/2
    norm_num
  have hclaim : claim_confidence [0, 1/100] = 40/41 := by
    unfold claim_confidence
    rw [hvar]
    norm_num
  refine ⟨?_, rfl, hcode, hclaim, ?_⟩
  · constructor
    · show (0:ℚ) ≤ 1/200
      norm_num
    · show ((1/200 : ℚ)) ^ 2 = npVariance [0, 1/100]
      rw [hvar]
      norm_num
  · rw [hcode, hclaim]
    norm_num

theorem confidence_bounds_witness :
    (1/2 ≤ (create_pattern stdC9 (fun _ _ => 0) 0 cwsC9 0 (1/2)).confidence ∧
     (create_pattern stdC9 (fun _ _ => 0) 0 cwsC9 0 (1/2)).confidence ≤ 1) ∧
    (1/2 ≤ (create_representative_pattern stdOneW (fun _ => 0) 0 [] 0
       0).confidence ∧
     (create_representative_pattern stdOneW (fun _ => 0) 0 [] 0
       0).confidence ≤ 1) :=
  ⟨confidence_bounds.1 stdC9 (fun _ _ => 0) 0 cwsC9 0 (1/2)
     (by norm_num [stdC9]),
   confidence_bounds.2 stdOneW (fun _ => 0) 0 [] 0 0⟩

/-!
## Claim C8
-/

/-- C8 amended (characterisation): a window is emitted by
`extract_sliding_window_patterns` iff its `pattern_strength` exceeds the
hard-coded constant `0.05`; the configured `noiseFilter` parameter never
enters the decision. -/
theorem window_filter_characterisation :
    ∀ (std : List ℚ → ℚ) (closes : List ℚ) (w : ℕ) (win : WindowB),
      win ∈ extract_windows_B std closes w ↔
        ∃ i, i < closes.length - w ∧
          keep_window (calculate_pattern_features std
            ((closes.drop i).take w)) = true ∧
          win = ⟨i, i + w, calculate_pattern_features std
            ((closes.drop i).take w)⟩ := by
  intro std closes w win
  unfold extract_windows_B
  constructor
  · intro h
    rcases List.mem_filterMap.mp h with ⟨i, hi, hsome⟩
    rw [List.mem_range] at hi
    by_cases hk : keep_window (calculate_pattern_features std
        ((closes.drop i).take w)) = true
    · refine ⟨i, hi, hk, ?_⟩
      rw [if_pos hk] at hsome
      exact (Option.some_inj.mp hsome).symm
    · rw [if_neg hk] at hsome
      exact absurd hsome (by simp)
  · rintro ⟨i, hi, hk, rfl⟩
    exact List.mem_filterMap.mpr
      ⟨i, List.mem_range.mpr hi, by rw [if_pos hk]⟩

/-- Constant standard-deviation function for the C8 counterexample: the
true `np.std` of the normalized window `[0, 1, 0, 0, 0]` is `2/5`. -/
def stdC8 : List ℚ → ℚ := fun _ => 2/5

/-- Close series for the C8 counterexample; the (only) length-5 window is
`[5, 6, 5, 5, 5]`. -/
def closesC8 : List ℚ := [5, 6, 5, 5, 5, 7]

/-- The window the C8 run extracts. -/
def windowC8 : WindowB :=
  ⟨0, 0 + 5, calculate_pattern_features stdC8 ((closesC8.drop 0).take 5)⟩

theorem windowC8_normalized :
    windowC8.features.normalized_prices = [0, 1, 0, 0, 0] := by
  show ((closesC8.drop 0).take 5).map
    (fun x => (x - listMin ((closesC8.drop 0).take 5)) /
      (listMax ((closesC8.drop 0).take 5) - listMin ((closesC8.drop 0).take 5)))
    = [0, 1, 0, 0, 0]
  norm_num [closesC8, listMin, listMax]

theorem windowC8_strength : windowC8.features.pattern_strength = 2/5 := by
  show stdC8 (windowC8.features.normalized_prices) +
    |(windowC8.features.normalized_prices).getLastD 0 -
      (windowC8.features.normalized_prices).headD 0| = 2/5
  rw [windowC8_normalized]
  norm_num [stdC8]

theorem windowC8_keep : keep_window windowC8.features = true := by
  apply decide_eq_true
  rw [windowC8_strength]
  norm_num

theorem window_filter_characterisation_witness :
    windowC8 ∈ extract_windows_B stdC8 closesC8 5 :=
  (window_filter_characterisation stdC8 closesC8 5 windowC8).mpr
    ⟨0, by norm_num [closesC8], windowC8_keep, rfl⟩

/-- C8 counterexample: the length-5 window `[5, 6, 5, 5, 5]` has
`patternStrength = np.std([0,1,0,0,0]) + |0 - 0| = 2/5`; the extractor
emits it (because `2/5 > 0.05`, the hard-coded floor) even though `2/5` is
below the configured `noiseFilter = 1/2` (the UI slider's maximum of 50%),
which the claim says must drop it. -/
theorem noise_filter_counterexample :
    NpStdSpec [0, 1, 0, 0, 0] (stdC8 [0, 1, 0, 0, 0]) ∧
    windowC8.features.normalized_prices = [0, 1, 0, 0, 0] ∧
    windowC8 ∈ extract_windows_B stdC8 closesC8 5 ∧
    keep_window windowC8.features = true ∧
    keep_window_spec (1/2) windowC8.features = false := by
  have hkeep : keep_window windowC8.features = true := by
    apply decide_eq_true
    rw [windowC8_strength]
    norm_num
  refine ⟨⟨?_, ?_⟩, windowC8_normalized, ?_, hkeep, ?_⟩
  · show (0:ℚ) ≤ 2/5
    norm_num
  · show ((2/5 : ℚ)) ^ 2 = npVariance [0, 1, 0, 0, 0]
    norm_num [npVariance, npMean]
  · show windowC8 ∈ (List.range (closesC8.length - 5)).filterMap _
    apply List.mem_filterMap.mpr
    refine ⟨0, by norm_num [closesC8], ?_⟩
    show (if keep_window (calculate_pattern_features stdC8
      ((closesC8.drop 0).take 5)) then some (⟨0, 0 + 5,
        calculate_pattern_features stdC8 ((closesC8.drop 0).take 5)⟩ :
        WindowB) else none) = some windowC8
    rw [if_pos (show keep_window (calculate_pattern_features stdC8
      ((closesC8.drop 0).take 5)) = true from hkeep)]
    rfl
  · apply decide_eq_false
    show ¬((1/2 : ℚ) ≤ windowC8.features.pattern_strength)
    rw [windowC8_strength]
    norm_num

/-!
## Demo-sort lemmas
-/

theorem mem_insertPatternDesc (p x : Pattern) (l : List Pattern) :
    x ∈ insertPatternDesc p l ↔ x = p ∨ x ∈ l := by
  induction l with
  | nil => simp [insertPatternDesc]
  | cons q t ih =>
    unfold insertPatternDesc
    by_cases hc : p.confidence < q.confidence
    · rw [if_pos hc]
      simp only [List.mem_cons, ih]
      tauto
    · rw [if_neg hc]
      simp only [List.mem_cons]

theorem mem_sortPatternsDesc (x : Pattern) (l : List Pattern) :
    x ∈ sortPatternsDesc l ↔ x ∈ l := by
  induction l with
  | nil => simp [sortPatternsDesc]
  | cons p t ih =>
    show x ∈ insertPatternDesc p (sortPatternsDesc t) ↔ _
    rw [mem_insertPatternDesc]
    simp only [List.mem_cons, ih]

theorem insertPatternDesc_perm (p : Pattern) (l : List Pattern) :
    List.Perm (insertPatternDesc p l) (p :: l) := by
  induction l with
  | nil => simp [insertPatternDesc]
  | cons q t ih =>
    unfold insertPatternDesc
    by_cases hc : p.confidence < q.confidence
    · rw [if_pos hc]
      exact (ih.cons q).trans (List.Perm.swap p q t)
    · rw [if_neg hc]

theorem sortPatternsDesc_perm (l : List Pattern) :
    List.Perm (sortPatternsDesc l) l := by
  induction l with
  | nil => simp [sortPatternsDesc]
  | cons p t ih =>
    show List.Perm (insertPatternDesc p (sortPatternsDesc t)) _
    exact (insertPatternDesc_perm p _).trans (ih.cons p)

theorem length_sortPatternsDesc (l : List Pattern) :
    (sortPatternsDesc l).length = l.length :=
  (sortPatternsDesc_perm l).length_eq

theorem sortPatternsDesc_cons_of_max (p : Pattern) (t : List Pattern)
    (h : ∀ q ∈ t, q.confidence ≤ p.confidence) :
    ∃ r, sortPatternsDesc (p :: t) = p :: r := by
  show ∃ r, insertPatternDesc p (sortPatternsDesc t) = p :: r
  cases hst : sortPatternsDesc t with
  | nil => exact ⟨[], rfl⟩
  | cons q t2 =>
    have hq : q ∈ t := (mem_sortPatternsDesc q t).mp
      (hst ▸ List.mem_cons_self q t2)
    have hc : ¬(p.confidence < q.confidence) := not_lt.mpr (h q hq)
    refine ⟨q :: t2, ?_⟩
    show insertPatternDesc p (q :: t2) = _
    unfold insertPatternDesc
    rw [if_neg hc]

theorem demoPattern_mem (rng : ℕ → ℚ) (now : ℚ) (i : ℕ)
    (h : i < demoNumPatterns rng) :
    demoPattern rng now i ∈ (generateDemoResults rng now).patterns := by
  show demoPattern rng now i ∈ sortPatternsDesc
    ((List.range (demoNumPatterns rng)).map (demoPattern rng now))
  exact (mem_sortPatternsDesc _ _).mpr
    (List.mem_map.mpr ⟨i, List.mem_range.mpr h, rfl⟩)

/-!
## Claim C10
-/

/-- C10: every Pattern produced by any result path — `create_pattern`,
`create_representative_pattern`, or the demo generator — has a nonnegative
Sharpe ratio, because each clamps it with
`max(0, profitability / (volatility + ε))` (resp.
`Math.max(0, (r − 0.15) * 2.5)`). -/
theorem sharpe_ratio_nonneg :
    (∀ (std : List ℚ → ℚ) (draws : ℕ → ℕ → ℕ) (noise : ℚ)
        (cw : List WindowA) (cid : ℕ) (s : ℚ),
        0 ≤ (create_pattern std draws noise cw cid s).sharpeRatio) ∧
    (∀ (std : List ℚ → ℚ) (sq : ℕ → ℚ) (noise : ℚ) (cw : List WindowB)
        (cid : ℕ) (s : ℚ),
        0 ≤ (create_representative_pattern std sq noise cw cid
          s).sharpeRatio) ∧
    (∀ (rng : ℕ → ℚ) (now : ℚ),
        ∀ p ∈ (generateDemoResults rng now).patterns, 0 ≤ p.sharpeRatio) := by
  refine ⟨?_, ?_, ?_⟩
  · intro std draws noise cw cid s
    show (0:ℚ) ≤ max 0 _
    exact le_max_left _ _
  · intro std sq noise cw cid s
    show (0:ℚ) ≤ max 0 _
    exact le_max_left _ _
  · intro rng now p hp
    have hp2 : p ∈ sortPatternsDesc
        ((List.range (demoNumPatterns rng)).map (demoPattern rng now)) := hp
    rcases List.mem_map.mp ((mem_sortPatternsDesc _ _).mp hp2) with ⟨i, _, rfl⟩
    show (0:ℚ) ≤ max 0 _
    exact le_max_left _ _

/-- Ambient random stream that always returns 0. -/
def rngZero : ℕ → ℚ := fun _ => 0

theorem demoNumPatterns_rngZero : demoNumPatterns rngZero = 10 := by
  norm_num [demoNumPatterns, rngZero]

theorem sharpe_ratio_nonneg_witness :
    0 ≤ (demoPattern rngZero 0 0).sharpeRatio :=
  sharpe_ratio_nonneg.2.2 rngZero 0 (demoPattern rngZero 0 0)
    (demoPattern_mem rngZero 0 0 (by rw [demoNumPatterns_rngZero]; norm_num))

/-!
## Demo-pattern projection lemmas
-/

theorem demoPattern_confidence (rng : ℕ → ℚ) (now : ℚ) (j : ℕ) :
    (demoPattern rng now j).confidence =
      3/5 + rng (1 + 32 * j + 1) * (7/20) := rfl

theorem demoPattern_profitability (rng : ℕ → ℚ) (now : ℚ) (j : ℕ) :
    (demoPattern rng now j).profitability =
      (rng (1 + 32 * j + 24) - 3/10) * (12/100) := rfl

theorem demoPattern_winRate (rng : ℕ → ℚ) (now : ℚ) (j : ℕ) :
    (demoPattern rng now j).winRate =
      (3/5 + rng (1 + 32 * j + 1) * (7/20)) * (85/100) +
        rng (1 + 32 * j + 25) * (15/100) := rfl

theorem demoPattern_id (rng : ℕ → ℚ) (now : ℚ) (j : ℕ) :
    (demoPattern rng now j).id = "pattern_" ++ pad3 j := rfl

/-!
## Claim C3
-/

/-- C3 amended: the demo generator accepts no seed; its output is a
function of the ambient `Math.random` stream (and the clock): two runs
coincide whenever their ambient streams agree on the consumed prefix of
`1 + 32·numPatterns + 5` draws.  (The generated Kaggle notebooks instead
hard-code `np.random.seed(42)`, a constant, not a parameter.) -/
theorem demo_determinism :
    ∀ (rng rng2 : ℕ → ℚ) (now : ℚ),
      (∀ i, i < 32 * demoNumPatterns rng + 6 → rng i = rng2 i) →
      generateDemoResults rng now = generateDemoResults rng2 now := by
  intro rng rng2 now h
  have hn : demoNumPatterns rng2 = demoNumPatterns rng := by
    unfold demoNumPatterns
    rw [h 0 (by omega)]
  have hpat : ∀ i < demoNumPatterns rng,
      demoPattern rng now i = demoPattern rng2 now i := by
    intro i hi
    unfold demoPattern
    have hd : (fun k : Fin 32 => rng (1 + 32 * i + k.val)) =
        (fun k : Fin 32 => rng2 (1 + 32 * i + k.val)) := by
      funext k
      have hk := k.isLt
      exact h (1 + 32 * i + k.val) (by omega)
    rw [hd]
  have hraw : (List.range (demoNumPatterns rng)).map (demoPattern rng now) =
      (List.range (demoNumPatterns rng)).map (demoPattern rng2 now) :=
    List.map_congr_left (fun i hi => hpat i (List.mem_range.mp hi))
  have hstat : (fun j : Fin 5 => rng (1 + 32 * demoNumPatterns rng + j.val)) =
      (fun j : Fin 5 => rng2 (1 + 32 * demoNumPatterns rng + j.val)) := by
    funext j
    have hj := j.isLt
    exact h (1 + 32 * demoNumPatterns rng + j.val) (by omega)
  simp only [generateDemoResults]
  rw [hn, hraw, hstat]

/-- Ambient stream differing from `rngZero` only in its first draw. -/
def rngHalf : ℕ → ℚ := fun n => if n = 0 then 1/2 else 0

theorem demoNumPatterns_rngHalf : demoNumPatterns rngHalf = 17 := by
  unfold demoNumPatterns
  rw [show rngHalf 0 = 1/2 from rfl, show ⌊(1/2 : ℚ) * 15⌋ = 7 by norm_num]
  decide

/-- C3 counterexample: two calls of the demo generator with identical
arguments apart from the ambient unseeded `Math.random` stream (for which
no seed parameter exists) return different numbers of patterns — 10 under
`rngZero`, 17 under `rngHalf`. -/
theorem demo_nondeterminism_counterexample :
    (generateDemoResults rngZero 0).patterns.length = 10 ∧
    (generateDemoResults rngHalf 0).patterns.length = 17 ∧
    (generateDemoResults rngZero 0).patterns.length ≠
      (generateDemoResults rngHalf 0).patterns.length := by
  have h1 : (generateDemoResults rngZero 0).patterns.length = 10 := by
    show (sortPatternsDesc _).length = 10
    rw [length_sortPatternsDesc, List.length_map, List.length_range,
      demoNumPatterns_rngZero]
  have h2 : (generateDemoResults rngHalf 0).patterns.length = 17 := by
    show (sortPatternsDesc _).length = 17
    rw [length_sortPatternsDesc, List.length_map, List.length_range,
      demoNumPatterns_rngHalf]
  exact ⟨h1, h2, by rw [h1, h2]; norm_num⟩

/-- Ambient stream agreeing with `rngZero` on the consumed prefix. -/
def rngC3W : ℕ → ℚ := fun i => if i < 326 then 0 else 1

theorem demo_determinism_witness :
    generateDemoResults rngZero 0 = generateDemoResults rngC3W 0 :=
  demo_determinism rngZero rngC3W 0 (by
    intro i hi
    rw [demoNumPatterns_rngZero] at hi
    show (0 : ℚ) = if i < 326 then 0 else 1
    rw [if_pos (by omega)])

/-!
## Claim C4
-/

/-- C4 amended (aggregator side): for every non-empty pattern list the
TypeScript aggregator's `avgConfidence` is the arithmetic mean of the
confidences and `bestPattern` is the id of a member of maximal
profitability; the empty list produces the all-zero statistics record
rather than an error (the function is total). -/
theorem aggregation_correctness :
    (∀ (h : Pattern) (t : List Pattern),
        (calculatePatternStatistics (h :: t)).avgConfidence =
          ((h :: t).map (·.confidence)).sum / ((h :: t).length : ℚ) ∧
        ∃ p ∈ h :: t,
          p.id = (calculatePatternStatistics (h :: t)).bestPattern ∧
          ∀ q ∈ h :: t, q.profitability ≤ p.profitability) ∧
    ((calculatePatternStatistics []).totalPatterns = 0 ∧
     (calculatePatternStatistics []).avgConfidence = 0 ∧
     (calculatePatternStatistics []).avgSupport = 0 ∧
     (calculatePatternStatistics []).overallProfitability = 0 ∧
     (calculatePatternStatistics []).avgWinRate = 0 ∧
     (calculatePatternStatistics []).avgSharpeRatio = 0 ∧
     (calculatePatternStatistics []).crossValidationScore = 0 ∧
     (calculatePatternStatistics []).bootstrapConfidence = 0 ∧
     (calculatePatternStatistics []).bestPattern = "" ∧
     (calculatePatternStatistics []).worstPattern = "" ∧
     (calculatePatternStatistics []).outOfSampleResults = ⟨0, 0, 0⟩) := by
  constructor
  · intro h t
    constructor
    · show sumBy (·.confidence) (h :: t) / ((h :: t).length : ℚ) = _
      rw [sumBy_eq_sum_map]
    · exact ⟨reduceBestByProfit h t, reduceBestByProfit_mem h t, rfl,
        reduceBestByProfit_le h t⟩
  · exact ⟨rfl, rfl, rfl, rfl, rfl, rfl, rfl, rfl, rfl, rfl, rfl⟩

/-- A small concrete pattern for witnesses. -/
def pToyA : Pattern :=
  ⟨"a", .bullish, 1/10, 4/5, 1/2, 3/100, 1/2, 1/100, 1/100, 1/2, [], 20, 5,
    0, 0⟩

/-- A second small concrete pattern for witnesses. -/
def pToyB : Pattern :=
  ⟨"b", .bearish, 1/5, 3/5, 1/2, 5/100, 1/2, 1/100, 1/100, 1/2, [], 20, 7,
    0, 0⟩

theorem aggregation_correctness_witness :
    (calculatePatternStatistics [pToyA, pToyB]).avgConfidence =
      (([pToyA, pToyB]).map (·.confidence)).sum /
        (([pToyA, pToyB] : List Pattern).length : ℚ) ∧
    ∃ p ∈ [pToyA, pToyB],
      p.id = (calculatePatternStatistics [pToyA, pToyB]).bestPattern ∧
      ∀ q ∈ [pToyA, pToyB], q.profitability ≤ p.profitability :=
  aggregation_correctness.1 pToyA [pToyB]

/-- Ambient stream for the C4 counterexample: only the draw at index 57 —
the profitability draw of demo pattern 1 — is nonzero. -/
def rngC4 : ℕ → ℚ := fun n => if n = 57 then 1/2 else 0

theorem rngC4_eq_zero (n : ℕ) (h : n ≠ 57) : rngC4 n = 0 := if_neg h

theorem demoNumPatterns_rngC4 : demoNumPatterns rngC4 = 10 := by
  have h0 : rngC4 0 = 0 := rngC4_eq_zero 0 (by norm_num)
  unfold demoNumPatterns
  rw [h0]
  norm_num

theorem demoPattern_rngC4_confidence (j : ℕ) :
    (demoPattern rngC4 0 j).confidence = 3/5 := by
  rw [demoPattern_confidence, rngC4_eq_zero _ (by omega)]
  norm_num

theorem demoPattern_rngC4_profit_ne_one (j : ℕ) (hj : j ≠ 1) :
    (demoPattern rngC4 0 j).profitability = -(9/250) := by
  rw [demoPattern_profitability, rngC4_eq_zero _ (by omega)]
  norm_num

theorem demoPattern_rngC4_profit_one :
    (demoPattern rngC4 0 1).profitability = 3/125 := by
  rw [demoPattern_profitability]
  norm_num [rngC4]

theorem sorted_rngC4_head :
    ∃ r, sortPatternsDesc ((List.range (demoNumPatterns rngC4)).map
      (demoPattern rngC4 0)) = demoPattern rngC4 0 0 :: r := by
  rw [demoNumPatterns_rngC4, show (10 : ℕ) = 9 + 1 from rfl,
    List.range_succ_eq_map, List.map_cons]
  apply sortPatternsDesc_cons_of_max
  intro q hq
  rcases List.mem_map.mp hq with ⟨m, _, rfl⟩
  rw [demoPattern_rngC4_confidence, demoPattern_rngC4_confidence]

theorem bestPattern_rngC4 :
    (generateDemoResults rngC4 0).statistics.bestPattern =
      (demoPattern rngC4 0 0).id := by
  obtain ⟨r, hr⟩ := sorted_rngC4_head
  show (((sortPatternsDesc ((List.range (demoNumPatterns rngC4)).map
    (demoPattern rngC4 0))).head?).map (·.id)).getD "" = _
  rw [hr]
  rfl

/-- C4 counterexample: on the demo path, `statistics.bestPattern` is the id
of the first pattern after sorting by confidence descending
(`pattern_000`), yet the member `pattern_001` has strictly greater
profitability than every pattern carrying the `bestPattern` id — so
`bestPattern` does not identify the pattern with maximal profitability. -/
theorem best_pattern_counterexample :
    (generateDemoResults rngC4 0).statistics.bestPattern =
      (demoPattern rngC4 0 0).id ∧
    demoPattern rngC4 0 1 ∈ (generateDemoResults rngC4 0).patterns ∧
    ∀ q ∈ (generateDemoResults rngC4 0).patterns,
      q.id = (generateDemoResults rngC4 0).statistics.bestPattern →
        q.profitability < (demoPattern rngC4 0 1).profitability := by
  refine ⟨bestPattern_rngC4, demoPattern_mem rngC4 0 1
    (by rw [demoNumPatterns_rngC4]; norm_num), ?_⟩
  intro q hq hid
  have hq2 : q ∈ sortPatternsDesc ((List.range (demoNumPatterns rngC4)).map
    (demoPattern rngC4 0)) := hq
  rcases List.mem_map.mp ((mem_sortPatternsDesc _ _).mp hq2) with ⟨j, _, rfl⟩
  by_cases hj : j = 1
  · subst hj
    rw [bestPattern_rngC4] at hid
    have h1 : (demoPattern rngC4 0 1).id = "pattern_001" := rfl
    have h0 : (demoPattern rngC4 0 0).id = "pattern_000" := rfl
    rw [h1, h0] at hid
    exact absurd hid (by decide)
  · rw [demoPattern_rngC4_profit_one, demoPattern_rngC4_profit_ne_one j hj]
    norm_num

/-!
## Claim C5
-/

/-- C5 amended (aggregator side): the TypeScript aggregator applies the
fixed discounts exactly — `outOfSampleResults.winRate = avgWinRate * 0.85`,
`avgReturn = overallProfitability * 0.8`,
`sharpeRatio = avgSharpeRatio * 0.75` — on every pattern list, the empty
one included. -/
theorem out_of_sample_discount :
    ∀ ps : List Pattern,
      (calculatePatternStatistics ps).outOfSampleResults.winRate =
        (calculatePatternStatistics ps).avgWinRate * (85/100) ∧
      (calculatePatternStatistics ps).outOfSampleResults.avgReturn =
        (calculatePatternStatistics ps).overallProfitability * (8/10) ∧
      (calculatePatternStatistics ps).outOfSampleResults.sharpeRatio =
        (calculatePatternStatistics ps).avgSharpeRatio * (75/100) := by
  intro ps
  cases ps with
  | nil =>
    refine ⟨?_, ?_, ?_⟩ <;> · show (0:ℚ) = 0 * _; norm_num
  | cons h t => exact ⟨rfl, rfl, rfl⟩

theorem demoPattern_rngZero_winRate (j : ℕ) :
    (demoPattern rngZero 0 j).winRate = 51/100 := by
  rw [demoPattern_winRate]
  norm_num [rngZero]

theorem avgWinRate_rngZero :
    (generateDemoResults rngZero 0).statistics.avgWinRate = 51/100 := by
  show sumBy (·.winRate) (sortPatternsDesc ((List.range
    (demoNumPatterns rngZero)).map (demoPattern rngZero 0))) /
    ((sortPatternsDesc ((List.range (demoNumPatterns rngZero)).map
      (demoPattern rngZero 0))).length : ℚ) = 51/100
  rw [sumBy_eq_sum_map, length_sortPatternsDesc, List.length_map,
    List.length_range, demoNumPatterns_rngZero]
  rw [((sortPatternsDesc_perm _).map (·.winRate)).sum_eq]
  rw [List.map_map]
  have hconst : (List.range 10).map ((·.winRate) ∘ demoPattern rngZero 0) =
      List.replicate 10 (51/100) := by
    apply List.eq_replicate_iff.mpr
    refine ⟨by simp, ?_⟩
    intro x hx
    rcases List.mem_map.mp hx with ⟨j, _, rfl⟩
    exact demoPattern_rngZero_winRate j
  rw [hconst, List.sum_replicate, nsmul_eq_mul]
  norm_num

set_option maxRecDepth 8000 in
theorem oos_winRate_rngZero :
    (generateDemoResults rngZero
      0).statistics.outOfSampleResults.winRate = 9/20 := by
  show rngZero (1 + 32 * demoNumPatterns rngZero + (2 : Fin 5).val) *
    (25/100) + 45/100 = 9/20
  norm_num [rngZero]

/-- C5 counterexample: the demo generator draws its out-of-sample win rate
afresh (`Math.random() * 0.25 + 0.45`) instead of discounting the
in-sample average: under `rngZero` it reports
`outOfSampleResults.winRate = 0.45` while `avgWinRate * 0.85 = 0.4335`. -/
theorem out_of_sample_counterexample :
    (generateDemoResults rngZero 0).statistics.outOfSampleResults.winRate =
      9/20 ∧
    (generateDemoResults rngZero 0).statistics.avgWinRate = 51/100 ∧
    (generateDemoResults rngZero 0).statistics.outOfSampleResults.winRate ≠
      (generateDemoResults rngZero 0).statistics.avgWinRate * (85/100) := by
  refine ⟨oos_winRate_rngZero, avgWinRate_rngZero, ?_⟩
  rw [oos_winRate_rngZero, avgWinRate_rngZero]
  norm_num
